import Mathlib

/-!
Verification of the crop_agent repository's resolver-with-fallback protocol.

The development shallowly embeds the Python sources:
  * `api_handler.py`   — ranch/crop name resolution, weather and plantings
                         preferred/fallback request chains, recommendation
                         builders (network modelled as an explicit oracle,
                         results as an explicit Python-style return/raise sum);
  * `config.py`        — the `Config` class, modelled as a partial attribute
                         map exactly as written (note: it defines no
                         `PLANTINGS_BY_RANCH_GUID` / `PLANTINGS_BY_RANCH_ID`);
  * `.github/scripts/chat_patch.py` — diff validation, whitespace
                         sanitisation, the model-call escalation and the
                         apply/commit/push chain, modelled as an event trace.

Machine integers are `Int`, Python strings are `String` (operations are
spelled out on `List Char` so that everything reduces in the kernel), and
JSON numbers appearing in response bodies are modelled as integers.
-/

/-! ### Python-style primitives -/

/-- Result of running a Python function: either a returned value or an
uncaught exception carrying its rendered message. -/
inductive PyResult (α : Type) where
  | ret (a : α)
  | raised (e : String)
deriving DecidableEq, Repr

/-- Python truthiness of an optional integer (`None` and `0` are falsy). -/
def truthyInt (o : Option Int) : Bool :=
  match o with
  | none => false
  | some n => n != 0

/-- Python truthiness of an optional string (`None` and `""` are falsy). -/
def truthyStr (o : Option String) : Bool :=
  match o with
  | none => false
  | some s => s != ""

/-- Python `a or b` on strings (`""` is falsy). -/
def pyOrS (a b : String) : String :=
  if a = "" then b else a

/-- Python `a or b` on optional integers (`None`/`0` falsy; returns `b`
unchanged when `a` is falsy, exactly like Python's `or`). -/
def pyOrI (a b : Option Int) : Option Int :=
  if truthyInt a then a else b

/-- Rendering of an optional string under Python string interpolation
(`None` prints as `"None"`). -/
def showOptStr (o : Option String) : String :=
  match o with
  | none => "None"
  | some s => s

/-- Python `s.strip()` (whitespace trimmed from both ends; the Lean
`Char.isWhitespace` set — space, tab, CR, LF — stands in for Python's). -/
def pyStrip (s : String) : String :=
  String.mk (((s.data.dropWhile Char.isWhitespace).reverse.dropWhile Char.isWhitespace).reverse)

/-- Python `s.strip().lower()`, the name normalisation used by the
resolvers (`Char.toLower` is ASCII-only, as is every name in the data). -/
def strip_lower (s : String) : String :=
  String.mk (((s.data.dropWhile Char.isWhitespace).reverse.dropWhile Char.isWhitespace).reverse.map Char.toLower)

/-- Python slicing `s[:n]` on a string. -/
def pyTake (s : String) (n : Nat) : String :=
  String.mk (s.data.take n)

/-- Substring search on character lists (Python's `needle in hay`). -/
def hasSub (needle : List Char) : List Char → Bool
  | [] => needle.isEmpty
  | c :: rest => needle.isPrefixOf (c :: rest) || hasSub needle rest

/-- Python `t in s` on strings. -/
def pyIn (t s : String) : Bool :=
  hasSub t.data s.data

/-! ### `config.py` — the `Config` class as an attribute map

`Config` defines exactly the attributes below; any other attribute access
raises `AttributeError` in Python, which the map models with `none`.
In particular the plantings URL attributes used by
`get_plantings_for_ranch` are NOT defined. -/

/-- Attribute table of `class Config` from `config.py`. -/
def cropConf : String → Option String := fun a =>
  if a = "API_BASE" then some "https://api.cropmanage.ucanr.edu"
  else if a = "TOKEN_URL" then some "https://api.cropmanage.ucanr.edu/Token"
  else if a = "CROP_TYPES" then some "https://api.cropmanage.ucanr.edu/v2/crop-types.json"
  else if a = "RANCHES" then some "https://api.cropmanage.ucanr.edu/v2/ranches.json"
  else if a = "IRRIGATION" then some "https://api.cropmanage.ucanr.edu/v2/irrigation-recommendation.json"
  else if a = "FERTILIZER" then some "https://api.cropmanage.ucanr.edu/v2/fertilizer-recommendation.json"
  else if a = "WEATHER_STATIONS" then some "https://api.cropmanage.ucanr.edu/v2/weather/stations.json"
  else none

/-! ### Identifier resolution (`api_handler.py` lines 45–71) -/

/-- A ranch object as returned by `GET /v2/ranches.json`: the fields read
by the code are `Name`, `Id` and (optionally) `Ranch_External_GUID`;
`r.get(k)` yields `None` for an absent key, hence the `Option`s. -/
structure Ranch where
  Name : Option String
  Id : Option Int
  Ranch_External_GUID : Option String
deriving DecidableEq, Repr

/-- The `for r in list_ranches(token)` loop body of `get_ranch_identifiers`:
return the identifier pair of the first ranch whose normalised `Name`
equals `target`, else `(None, None)`. -/
def lookupRanch (target : String) : List Ranch → Option Int × Option String
  | [] => (none, none)
  | r :: rest =>
    if strip_lower (r.Name.getD "") = target then (r.Id, r.Ranch_External_GUID)
    else lookupRanch target rest

/-- `get_ranch_identifiers(ranch_name, token)` with the ranch listing
(the body fetched by `list_ranches`) passed explicitly.  The query is
`(ranch_name or "").strip().lower()`. -/
def get_ranch_identifiers (ranch_name : Option String) (ranches : List Ranch) : Option Int × Option String :=
  lookupRanch (strip_lower (ranch_name.getD "")) ranches

/-- `get_ranch_id`: first component of `get_ranch_identifiers`. -/
def get_ranch_id (ranch_name : Option String) (ranches : List Ranch) : Option Int :=
  (get_ranch_identifiers ranch_name ranches).1

/-- A crop-type object from `GET /v2/crop-types.json` (fields read:
`Name`, `Id`, `CropTypeId`). -/
structure CropT where
  Name : Option String
  Id : Option Int
  CropTypeId : Option Int
deriving DecidableEq, Repr

/-- The loop of `get_crop_type_id` over the fetched crop-type list:
first exact case/space-insensitive `Name` match, returning
`c.get("Id") or c.get("CropTypeId")`. -/
def lookupCrop (target : String) : List CropT → Option Int
  | [] => none
  | c :: rest =>
    if strip_lower (c.Name.getD "") = target then pyOrI c.Id c.CropTypeId
    else lookupCrop target rest

/-- Pure core of `get_crop_type_id(crop_name, token)` (the crop-type
listing passed explicitly; the surrounding network fetch is handled at
the call sites, which model its `raise_for_status`). -/
def get_crop_type_id (crop_name : Option String) (crops : List CropT) : Option Int :=
  lookupCrop (strip_lower (crop_name.getD "")) crops

/-! ### Basic facts about the resolver -/

theorem lookupRanch_eq_find (target : String) (rs : List Ranch) :
    lookupRanch target rs =
      match rs.find? (fun r => strip_lower (r.Name.getD "") == target) with
      | some r => (r.Id, r.Ranch_External_GUID)
      | none => (none, none) := by
  induction rs with
  | nil => rfl
  | cons r rest ih =>
    by_cases h : strip_lower (r.Name.getD "") = target
    · simp [lookupRanch, h, List.find?]
    · have hb : (strip_lower (r.Name.getD "") == target) = false := beq_eq_false_iff_ne.mpr h
      simp [lookupRanch, h, List.find?, hb, ih]

theorem get_ranch_identifiers_norm (q1 q2 : Option String) (rs : List Ranch)
    (h : strip_lower (q1.getD "") = strip_lower (q2.getD "")) :
    get_ranch_identifiers q1 rs = get_ranch_identifiers q2 rs := by
  unfold get_ranch_identifiers
  rw [h]

/-- C1: `get_ranch_identifiers` returns the `(Id, Ranch_External_GUID)`
pair of the first candidate whose `Name`, stripped and lower-cased,
equals the stripped lower-cased query, and `(none, none)` when no
candidate matches; consequently any two query names with the same
normalisation (in particular names differing only by case or surrounding
whitespace) resolve to the same result over the same candidate list. -/
theorem C1_resolver_first_match_and_case_insensitive :
    (∀ (q : Option String) (rs : List Ranch),
      get_ranch_identifiers q rs =
        match rs.find? (fun r => strip_lower (r.Name.getD "") == strip_lower (q.getD "")) with
        | some r => (r.Id, r.Ranch_External_GUID)
        | none => (none, none)) ∧
    (∀ (q1 q2 : Option String) (rs : List Ranch),
      strip_lower (q1.getD "") = strip_lower (q2.getD "") →
      get_ranch_identifiers q1 rs = get_ranch_identifiers q2 rs) :=
  ⟨fun _ rs => lookupRanch_eq_find _ rs, get_ranch_identifiers_norm⟩

/-- Scenario list from the spec: `[{"Name":"Pryor Ranch","Id":12,"Ranch_External_GUID":"g-99"}]`. -/
def pryorList : List Ranch :=
  [⟨some "Pryor Ranch", some 12, some "g-99"⟩]

/-- C1 witness: `"Pryor Ranch"`, `"pryor ranch"` and `"  PRYOR RANCH  "`
normalise alike, so the resolver treats them identically, and each
resolves to `(12, "g-99")` on the scenario list. -/
theorem C1_witness :
    get_ranch_identifiers (some "  PRYOR RANCH  ") pryorList =
      get_ranch_identifiers (some "pryor ranch") pryorList ∧
    get_ranch_identifiers (some "pryor ranch") pryorList = (some 12, some "g-99") :=
  ⟨C1_resolver_first_match_and_case_insensitive.2 (some "  PRYOR RANCH  ") (some "pryor ranch")
      pryorList (by decide), by decide⟩

/-! ### Weather lookup (`api_handler.py` lines 91–121)

`get_weather_update` resolves the location, then issues up to two `GET`s
against `conf.WEATHER_STATIONS`.  A request is identified by its `params`
dict: `{"ranchGuid": g}` or `{"ranchId": i}` — or `params=None` when the
corresponding identifier is falsy, in which case the request is STILL
issued, just without parameters.  The network is an oracle from the
params to either a raised transport exception or a response. -/

/-- The `params` argument of a stations request. -/
inductive WParams where
  | noParams
  | byGuid (g : String)
  | byId (i : Int)
deriving DecidableEq, Repr

/-- A station object; the code reads `temp_c`, `conditions`, `wind_speed`
with default `'?'` (values rendered as strings). -/
structure WStation where
  temp_c : Option String
  conditions : Option String
  wind_speed : Option String
deriving DecidableEq, Repr

/-- Outcome of one `requests.get` on the stations endpoint: a raised
`requests.RequestException` (message as rendered by `str(e)`), or a
response carrying its status code, the message of the `HTTPError` that
`raise_for_status()` would raise for it (library-generated text, part of
the environment), and its JSON body. -/
inductive WResp where
  | exn (msg : String)
  | resp (status : Nat) (errMsg : String) (body : List WStation)
deriving DecidableEq, Repr

/-- Environment of `get_weather_update`: the outcome of the
`list_ranches` fetch (`Except.error` = its `raise_for_status` raised,
which propagates uncaught), and the stations oracle. -/
structure WeatherEnv where
  ranches : Except String (List Ranch)
  net : WParams → WResp

/-- The f-string rendered for a station. -/
def weatherLine (st : WStation) : String :=
  "Current weather: " ++ (st.temp_c.getD "?") ++ "°C, " ++ (st.conditions.getD "?")
    ++ ", Wind: " ++ (st.wind_speed.getD "?") ++ " kph"

/-- Params of the first (preferred) stations request:
`{"ranchGuid": ranch_guid} if ranch_guid else None`. -/
def preferredW (ids : Option Int × Option String) : WParams :=
  if truthyStr ids.2 then WParams.byGuid (ids.2.getD "") else WParams.noParams

/-- Params of the numeric fallback stations request:
`{"ranchId": ranch_id} if ranch_id else None`. -/
def fallbackW (ids : Option Int × Option String) : WParams :=
  if truthyInt ids.1 then WParams.byId (ids.1.getD 0) else WParams.noParams

/-- Outcome test of the first stations request (lines 101–110): the
exception is swallowed (`except ... pass`), and the attempt counts as a
hit only on `resp.status_code == 200 and resp.json()` — i.e. status 200
with a non-empty body — in which case `resp.json()[0]` is the station. -/
def wFirstSuccess (r : WResp) : Option WStation :=
  match r with
  | WResp.exn _ => none
  | WResp.resp status _ body => if status = 200 then body.head? else none

/-- Result of the numeric-fallback stations request (lines 112–121):
`raise_for_status` turns a `400 ≤ status` response into a caught
`HTTPError`; otherwise `resp.json()[0]` raises `IndexError` (uncaught)
on an empty body. -/
def wFallbackResult (r : WResp) : PyResult String :=
  match r with
  | WResp.exn e => PyResult.ret ("❌ Weather data unavailable: " ++ e)
  | WResp.resp status errMsg body =>
    if 400 ≤ status then PyResult.ret ("❌ Weather data unavailable: " ++ errMsg)
    else
      match body with
      | [] => PyResult.raised "IndexError: list index out of range"
      | st :: _ => PyResult.ret (weatherLine st)

/-- `get_weather_update(location, token)`: returns the list of stations
requests issued (in order) together with the Python result. -/
def get_weather_update (env : WeatherEnv) (location : Option String) :
    List WParams × PyResult String :=
  match env.ranches with
  | Except.error e => ([], PyResult.raised e)
  | Except.ok ranches =>
    let ids := get_ranch_identifiers location ranches
    if !(truthyStr ids.2 || truthyInt ids.1) then
      ([], PyResult.ret "❌ Location not found")
    else
      match wFirstSuccess (env.net (preferredW ids)) with
      | some st => ([preferredW ids], PyResult.ret (weatherLine st))
      | none =>
        ([preferredW ids, fallbackW ids], wFallbackResult (env.net (fallbackW ids)))

/-! ### Plantings listing (`api_handler.py` lines 124–159)

`get_plantings_for_ranch` resolves the ranch, then (preferring the GUID
path) issues up to two `GET`s.  Each URL comes from a `Config` attribute;
the attribute table is passed explicitly (`cropConf` is the repository's
actual table, which lacks both plantings attributes, so attribute access
raises before any request).  The plantings oracle answers each attempt
with `Except.error e` when `requests.get`/`raise_for_status` raised a
`RequestException` rendered as `e`, and with the JSON body (opaque
elements) on success. -/

/-- Query params shared by both plantings attempts (`active`,
`commodityTypeId`); `ranchId` is added only on the numeric attempt. -/
structure PParams where
  active : Option String
  commodityTypeId : Option Int
deriving DecidableEq, Repr

/-- One plantings request: the GUID sub-resource path or the numeric
`list-by-ranch` path (whose `ranchId` param carries the resolved id,
possibly `None`). -/
inductive PAttempt where
  | guidPath (g : String) (ps : PParams)
  | byIdPath (ranchId : Option Int) (ps : PParams)
deriving DecidableEq, Repr

/-- Environment of `get_plantings_for_ranch`. -/
structure PlantingsEnv where
  ranches : Except String (List Ranch)
  net : PAttempt → Except String (List String)

/-- The `params` dict built in lines 134–138: `active` rendered as
`"true"`/`"false"` when the argument is not `None`, `commodityTypeId`
added only when truthy. -/
def psOf (active : Option Bool) (commodity_type_id : Option Int) : PParams :=
  ⟨active.map (fun b => if b then "true" else "false"),
   if truthyInt commodity_type_id then commodity_type_id else none⟩

/-- The numeric-fallback tail of `get_plantings_for_ranch` (lines
150–159): look up `conf.PLANTINGS_BY_RANCH_ID` (AttributeError when
absent — before the request), then issue the numeric attempt. -/
def plantingsNumeric (conf : String → Option String) (env : PlantingsEnv)
    (ranch_id : Option Int) (ps : PParams) (tr : List PAttempt) :
    List PAttempt × PyResult (List String × Option String) :=
  match conf "PLANTINGS_BY_RANCH_ID" with
  | none => (tr, PyResult.raised "AttributeError: type object 'Config' has no attribute 'PLANTINGS_BY_RANCH_ID'")
  | some _url =>
    let a2 := PAttempt.byIdPath ranch_id ps
    match env.net a2 with
    | Except.ok body => (tr ++ [a2], PyResult.ret (body, none))
    | Except.error e => (tr ++ [a2], PyResult.ret ([], some ("❌ Failed to fetch plantings: " ++ e)))

/-- `get_plantings_for_ranch(token, ranch_name, active, commodity_type_id)`:
trace of plantings requests issued plus the Python result
`(plantings, err)`. -/
def get_plantings_for_ranch (conf : String → Option String) (env : PlantingsEnv)
    (ranch_name : Option String) (active : Option Bool) (commodity_type_id : Option Int) :
    List PAttempt × PyResult (List String × Option String) :=
  match env.ranches with
  | Except.error e => ([], PyResult.raised e)
  | Except.ok ranches =>
    let ids := get_ranch_identifiers ranch_name ranches
    if !(truthyInt ids.1 || truthyStr ids.2) then
      ([], PyResult.ret ([], some ("❌ Ranch '" ++ showOptStr ranch_name ++ "' not found")))
    else
      let ps : PParams := psOf active commodity_type_id
      if truthyStr ids.2 then
        match conf "PLANTINGS_BY_RANCH_GUID" with
        | none => ([], PyResult.raised "AttributeError: type object 'Config' has no attribute 'PLANTINGS_BY_RANCH_GUID'")
        | some _url =>
          let a1 := PAttempt.guidPath (ids.2.getD "") ps
          match env.net a1 with
          | Except.ok body => ([a1], PyResult.ret (body, none))
          | Except.error _ => plantingsNumeric conf env ids.1 ps [a1]
      else
        plantingsNumeric conf env ids.1 ps []

/-! ### Characterisation of the two request chains -/

theorem weather_ranches_error (env : WeatherEnv) (loc : Option String) (e : String)
    (hr : env.ranches = Except.error e) :
    get_weather_update env loc = ([], PyResult.raised e) := by
  unfold get_weather_update
  rw [hr]

theorem weather_not_found (env : WeatherEnv) (loc : Option String) (rs : List Ranch)
    (hr : env.ranches = Except.ok rs)
    (hf : (truthyStr (get_ranch_identifiers loc rs).2 ||
           truthyInt (get_ranch_identifiers loc rs).1) = false) :
    get_weather_update env loc = ([], PyResult.ret "❌ Location not found") := by
  unfold get_weather_update
  rw [hr]
  simp [hf]

theorem weather_first_success (env : WeatherEnv) (loc : Option String) (rs : List Ranch)
    (st : WStation) (hr : env.ranches = Except.ok rs)
    (hf : (truthyStr (get_ranch_identifiers loc rs).2 ||
           truthyInt (get_ranch_identifiers loc rs).1) = true)
    (h1 : wFirstSuccess (env.net (preferredW (get_ranch_identifiers loc rs))) = some st) :
    get_weather_update env loc =
      ([preferredW (get_ranch_identifiers loc rs)], PyResult.ret (weatherLine st)) := by
  unfold get_weather_update
  rw [hr]
  simp [hf, h1]

theorem weather_fallback (env : WeatherEnv) (loc : Option String) (rs : List Ranch)
    (hr : env.ranches = Except.ok rs)
    (hf : (truthyStr (get_ranch_identifiers loc rs).2 ||
           truthyInt (get_ranch_identifiers loc rs).1) = true)
    (h1 : wFirstSuccess (env.net (preferredW (get_ranch_identifiers loc rs))) = none) :
    get_weather_update env loc =
      ([preferredW (get_ranch_identifiers loc rs), fallbackW (get_ranch_identifiers loc rs)],
       wFallbackResult (env.net (fallbackW (get_ranch_identifiers loc rs)))) := by
  unfold get_weather_update
  rw [hr]
  simp [hf, h1]

theorem weather_trace_len (env : WeatherEnv) (loc : Option String) :
    (get_weather_update env loc).1.length ≤ 2 := by
  unfold get_weather_update
  cases hr : env.ranches with
  | error e => simp
  | ok rs =>
    simp only []
    split
    · simp
    · split <;> simp

theorem plantingsNumeric_missing (conf : String → Option String) (env : PlantingsEnv)
    (rid : Option Int) (ps : PParams) (tr : List PAttempt)
    (hc : conf "PLANTINGS_BY_RANCH_ID" = none) :
    plantingsNumeric conf env rid ps tr =
      (tr, PyResult.raised "AttributeError: type object 'Config' has no attribute 'PLANTINGS_BY_RANCH_ID'") := by
  unfold plantingsNumeric
  rw [hc]

theorem plantingsNumeric_ok (conf : String → Option String) (env : PlantingsEnv)
    (rid : Option Int) (ps : PParams) (tr : List PAttempt) (u : String) (body : List String)
    (hc : conf "PLANTINGS_BY_RANCH_ID" = some u)
    (hn : env.net (PAttempt.byIdPath rid ps) = Except.ok body) :
    plantingsNumeric conf env rid ps tr =
      (tr ++ [PAttempt.byIdPath rid ps], PyResult.ret (body, none)) := by
  simp [plantingsNumeric, hc, hn]

theorem plantingsNumeric_err (conf : String → Option String) (env : PlantingsEnv)
    (rid : Option Int) (ps : PParams) (tr : List PAttempt) (u : String) (e : String)
    (hc : conf "PLANTINGS_BY_RANCH_ID" = some u)
    (hn : env.net (PAttempt.byIdPath rid ps) = Except.error e) :
    plantingsNumeric conf env rid ps tr =
      (tr ++ [PAttempt.byIdPath rid ps],
       PyResult.ret ([], some ("❌ Failed to fetch plantings: " ++ e))) := by
  simp [plantingsNumeric, hc, hn]

theorem plantings_no_guid (conf : String → Option String) (env : PlantingsEnv)
    (name : Option String) (act : Option Bool) (cti : Option Int) (rs : List Ranch)
    (hr : env.ranches = Except.ok rs)
    (hf : (truthyInt (get_ranch_identifiers name rs).1 ||
           truthyStr (get_ranch_identifiers name rs).2) = true)
    (hg : truthyStr (get_ranch_identifiers name rs).2 = false) :
    get_plantings_for_ranch conf env name act cti =
      plantingsNumeric conf env (get_ranch_identifiers name rs).1 (psOf act cti) [] := by
  have hi : truthyInt (get_ranch_identifiers name rs).1 = true := by
    simpa [hg] using hf
  unfold get_plantings_for_ranch
  rw [hr]
  simp [hi, hg]

theorem plantings_guid_missing_conf (conf : String → Option String) (env : PlantingsEnv)
    (name : Option String) (act : Option Bool) (cti : Option Int) (rs : List Ranch)
    (hr : env.ranches = Except.ok rs)
    (hg : truthyStr (get_ranch_identifiers name rs).2 = true)
    (hc : conf "PLANTINGS_BY_RANCH_GUID" = none) :
    get_plantings_for_ranch conf env name act cti =
      ([], PyResult.raised "AttributeError: type object 'Config' has no attribute 'PLANTINGS_BY_RANCH_GUID'") := by
  unfold get_plantings_for_ranch
  rw [hr]
  simp [hg, hc]

theorem plantings_guid_ok (conf : String → Option String) (env : PlantingsEnv)
    (name : Option String) (act : Option Bool) (cti : Option Int) (rs : List Ranch)
    (u : String) (body : List String)
    (hr : env.ranches = Except.ok rs)
    (hg : truthyStr (get_ranch_identifiers name rs).2 = true)
    (hc : conf "PLANTINGS_BY_RANCH_GUID" = some u)
    (hn : env.net (PAttempt.guidPath ((get_ranch_identifiers name rs).2.getD "") (psOf act cti)) =
          Except.ok body) :
    get_plantings_for_ranch conf env name act cti =
      ([PAttempt.guidPath ((get_ranch_identifiers name rs).2.getD "") (psOf act cti)],
       PyResult.ret (body, none)) := by
  unfold get_plantings_for_ranch
  rw [hr]
  simp [hg, hc, hn]

theorem plantings_guid_err (conf : String → Option String) (env : PlantingsEnv)
    (name : Option String) (act : Option Bool) (cti : Option Int) (rs : List Ranch)
    (u : String) (e : String)
    (hr : env.ranches = Except.ok rs)
    (hg : truthyStr (get_ranch_identifiers name rs).2 = true)
    (hc : conf "PLANTINGS_BY_RANCH_GUID" = some u)
    (hn : env.net (PAttempt.guidPath ((get_ranch_identifiers name rs).2.getD "") (psOf act cti)) =
          Except.error e) :
    get_plantings_for_ranch conf env name act cti =
      plantingsNumeric conf env (get_ranch_identifiers name rs).1 (psOf act cti)
        [PAttempt.guidPath ((get_ranch_identifiers name rs).2.getD "") (psOf act cti)] := by
  unfold get_plantings_for_ranch
  rw [hr]
  simp [hg, hc, hn]

theorem plantingsNumeric_len (conf : String → Option String) (env : PlantingsEnv)
    (rid : Option Int) (ps : PParams) (tr : List PAttempt) :
    (plantingsNumeric conf env rid ps tr).1.length ≤ tr.length + 1 := by
  unfold plantingsNumeric
  cases hc : conf "PLANTINGS_BY_RANCH_ID" with
  | none => simp
  | some u =>
    cases hn : env.net (PAttempt.byIdPath rid ps) <;> simp [hn]

theorem plantings_trace_len (conf : String → Option String) (env : PlantingsEnv)
    (name : Option String) (act : Option Bool) (cti : Option Int) :
    (get_plantings_for_ranch conf env name act cti).1.length ≤ 2 := by
  unfold get_plantings_for_ranch
  cases hr : env.ranches with
  | error e => simp
  | ok rs =>
    simp only []
    split
    · simp
    · split
      · split
        · simp
        · split
          · simp
          · exact le_trans (plantingsNumeric_len _ _ _ _ _) (by simp)
      · exact le_trans (plantingsNumeric_len _ _ _ _ _) (by simp)

theorem plantingsNumeric_shape (conf : String → Option String) (env : PlantingsEnv)
    (rid : Option Int) (ps : PParams) (tr : List PAttempt) :
    (plantingsNumeric conf env rid ps tr).1 = tr ∨
    (plantingsNumeric conf env rid ps tr).1 = tr ++ [PAttempt.byIdPath rid ps] := by
  unfold plantingsNumeric
  cases hc : conf "PLANTINGS_BY_RANCH_ID" with
  | none => left; rfl
  | some u =>
    cases hn : env.net (PAttempt.byIdPath rid ps) <;> simp [hn]

theorem plantings_repo_config_raises (env : PlantingsEnv) (name : Option String)
    (act : Option Bool) (cti : Option Int) (rs : List Ranch)
    (hr : env.ranches = Except.ok rs)
    (hf : (truthyInt (get_ranch_identifiers name rs).1 ||
           truthyStr (get_ranch_identifiers name rs).2) = true) :
    (get_plantings_for_ranch cropConf env name act cti).1 = [] ∧
    ∃ msg, (get_plantings_for_ranch cropConf env name act cti).2 = PyResult.raised msg := by
  have hg1 : cropConf "PLANTINGS_BY_RANCH_GUID" = none := by decide
  have hg2 : cropConf "PLANTINGS_BY_RANCH_ID" = none := by decide
  cases hguid : truthyStr (get_ranch_identifiers name rs).2 with
  | true =>
    rw [plantings_guid_missing_conf cropConf env name act cti rs hr hguid hg1]
    exact ⟨rfl, _, rfl⟩
  | false =>
    rw [plantings_no_guid cropConf env name act cti rs hr hf hguid,
        plantingsNumeric_missing cropConf env _ _ _ hg2]
    exact ⟨rfl, _, rfl⟩

/-! ### C2: preferred/fallback ordering of the two request chains -/

/-- Station used by the concrete test environments. -/
def stationA : WStation := ⟨some "20", some "sunny", some "10"⟩

/-- Environment in which the GUID-addressed stations request answers
`200` with an EMPTY station list, and every other request answers `200`
with a station. -/
def envC2 : WeatherEnv :=
  ⟨Except.ok pryorList, fun p =>
    match p with
    | WParams.byGuid _ => WResp.resp 200 "" []
    | _ => WResp.resp 200 "" [stationA]⟩

/-- C2 counterexample: for the resolved ranch `Pryor Ranch` (GUID
`g-99`), the preferred GUID-addressed attempt returns the SUCCESS status
200 (no exception), yet the numeric fallback request is still issued —
the code also falls back when the 200 response carries an empty station
list, so the fallback is not issued "only after the preferred attempt
has failed (exception or non-success status)" as the claim states. -/
theorem C2_counterexample :
    envC2.net (WParams.byGuid "g-99") = WResp.resp 200 "" [] ∧
    (get_weather_update envC2 (some "Pryor Ranch")).1 =
      [WParams.byGuid "g-99", WParams.byId 12] := by
  decide

/-- C2 (amended): at most two network attempts per logical call, the
GUID-addressed attempt first when a GUID was resolved, stopping at the
first hit.  For the weather lookup a "hit" is a 200 response with a
non-empty station list — the fallback is additionally issued after a 200
response with an empty body — and when no GUID was resolved the first
stations request is still issued (without parameters).  For the
plantings listing, under the repository's actual `Config` (which lacks
both plantings URL attributes) an `AttributeError` is raised before any
request; under a config defining them, the GUID path is tried first,
the numeric path only after it raises, execution stops at the first
success, and when both attempts fail the returned error names the last
exception. -/
theorem C2_amended_fallback_protocol :
    (∀ (env : WeatherEnv) (loc : Option String),
      (get_weather_update env loc).1.length ≤ 2) ∧
    (∀ (conf : String → Option String) (env : PlantingsEnv) (name : Option String)
        (act : Option Bool) (cti : Option Int),
      (get_plantings_for_ranch conf env name act cti).1.length ≤ 2) ∧
    (∀ (env : WeatherEnv) (loc : Option String) (rs : List Ranch) (st : WStation),
      env.ranches = Except.ok rs →
      (truthyStr (get_ranch_identifiers loc rs).2 ||
       truthyInt (get_ranch_identifiers loc rs).1) = true →
      wFirstSuccess (env.net (preferredW (get_ranch_identifiers loc rs))) = some st →
      get_weather_update env loc =
        ([preferredW (get_ranch_identifiers loc rs)], PyResult.ret (weatherLine st))) ∧
    (∀ (env : WeatherEnv) (loc : Option String) (rs : List Ranch),
      env.ranches = Except.ok rs →
      (truthyStr (get_ranch_identifiers loc rs).2 ||
       truthyInt (get_ranch_identifiers loc rs).1) = true →
      wFirstSuccess (env.net (preferredW (get_ranch_identifiers loc rs))) = none →
      get_weather_update env loc =
        ([preferredW (get_ranch_identifiers loc rs), fallbackW (get_ranch_identifiers loc rs)],
         wFallbackResult (env.net (fallbackW (get_ranch_identifiers loc rs))))) ∧
    (∀ (env : PlantingsEnv) (name : Option String) (act : Option Bool) (cti : Option Int)
        (rs : List Ranch),
      env.ranches = Except.ok rs →
      (truthyInt (get_ranch_identifiers name rs).1 ||
       truthyStr (get_ranch_identifiers name rs).2) = true →
      (get_plantings_for_ranch cropConf env name act cti).1 = [] ∧
      ∃ msg, (get_plantings_for_ranch cropConf env name act cti).2 = PyResult.raised msg) ∧
    (∀ (conf : String → Option String) (env : PlantingsEnv) (name : Option String)
        (act : Option Bool) (cti : Option Int) (rs : List Ranch) (u : String)
        (body : List String),
      env.ranches = Except.ok rs →
      truthyStr (get_ranch_identifiers name rs).2 = true →
      conf "PLANTINGS_BY_RANCH_GUID" = some u →
      env.net (PAttempt.guidPath ((get_ranch_identifiers name rs).2.getD "") (psOf act cti)) =
        Except.ok body →
      get_plantings_for_ranch conf env name act cti =
        ([PAttempt.guidPath ((get_ranch_identifiers name rs).2.getD "") (psOf act cti)],
         PyResult.ret (body, none))) ∧
    (∀ (conf : String → Option String) (env : PlantingsEnv) (name : Option String)
        (act : Option Bool) (cti : Option Int) (rs : List Ranch) (u : String) (e : String),
      env.ranches = Except.ok rs →
      truthyStr (get_ranch_identifiers name rs).2 = true →
      conf "PLANTINGS_BY_RANCH_GUID" = some u →
      env.net (PAttempt.guidPath ((get_ranch_identifiers name rs).2.getD "") (psOf act cti)) =
        Except.error e →
      get_plantings_for_ranch conf env name act cti =
        plantingsNumeric conf env (get_ranch_identifiers name rs).1 (psOf act cti)
          [PAttempt.guidPath ((get_ranch_identifiers name rs).2.getD "") (psOf act cti)]) ∧
    (∀ (conf : String → Option String) (env : PlantingsEnv) (name : Option String)
        (act : Option Bool) (cti : Option Int) (rs : List Ranch),
      env.ranches = Except.ok rs →
      (truthyInt (get_ranch_identifiers name rs).1 ||
       truthyStr (get_ranch_identifiers name rs).2) = true →
      truthyStr (get_ranch_identifiers name rs).2 = false →
      get_plantings_for_ranch conf env name act cti =
        plantingsNumeric conf env (get_ranch_identifiers name rs).1 (psOf act cti) []) ∧
    (∀ (conf : String → Option String) (env : PlantingsEnv) (rid : Option Int) (ps : PParams)
        (tr : List PAttempt) (u : String) (body : List String),
      conf "PLANTINGS_BY_RANCH_ID" = some u →
      env.net (PAttempt.byIdPath rid ps) = Except.ok body →
      plantingsNumeric conf env rid ps tr =
        (tr ++ [PAttempt.byIdPath rid ps], PyResult.ret (body, none))) ∧
    (∀ (conf : String → Option String) (env : PlantingsEnv) (rid : Option Int) (ps : PParams)
        (tr : List PAttempt) (u : String) (e : String),
      conf "PLANTINGS_BY_RANCH_ID" = some u →
      env.net (PAttempt.byIdPath rid ps) = Except.error e →
      plantingsNumeric conf env rid ps tr =
        (tr ++ [PAttempt.byIdPath rid ps],
         PyResult.ret ([], some ("❌ Failed to fetch plantings: " ++ e)))) :=
  ⟨weather_trace_len, plantings_trace_len,
   weather_first_success, weather_fallback,
   plantings_repo_config_raises,
   fun conf env name act cti rs u body hr hg hc hn =>
     plantings_guid_ok conf env name act cti rs u body hr hg hc hn,
   fun conf env name act cti rs u e hr hg hc hn =>
     plantings_guid_err conf env name act cti rs u e hr hg hc hn,
   fun conf env name act cti rs hr hf hg =>
     plantings_no_guid conf env name act cti rs hr hf hg,
   fun conf env rid ps tr u body hc hn =>
     plantingsNumeric_ok conf env rid ps tr u body hc hn,
   fun conf env rid ps tr u e hc hn =>
     plantingsNumeric_err conf env rid ps tr u e hc hn⟩

/-- Environment in which every stations request succeeds with a
station. -/
def envC2w : WeatherEnv :=
  ⟨Except.ok pryorList, fun _ => WResp.resp 200 "" [stationA]⟩

/-- C2 witness: on the scenario list, `Pryor Ranch` resolves with GUID
`g-99`, the GUID-addressed attempt hits, and the call stops after that
single attempt. -/
theorem C2_witness :
    get_weather_update envC2w (some "Pryor Ranch") =
      ([preferredW (get_ranch_identifiers (some "Pryor Ranch") pryorList)],
       PyResult.ret (weatherLine stationA)) :=
  C2_amended_fallback_protocol.2.2.1 envC2w (some "Pryor Ranch") pryorList stationA
    rfl (by decide) (by decide)

/-! ### C3: entities with a numeric id but no GUID -/

theorem weather_no_guid_shape (env : WeatherEnv) (loc : Option String) (rs : List Ranch)
    (hr : env.ranches = Except.ok rs)
    (hg : truthyStr (get_ranch_identifiers loc rs).2 = false)
    (hi : truthyInt (get_ranch_identifiers loc rs).1 = true) :
    (get_weather_update env loc).1.head? = some WParams.noParams ∧
    (∀ g, WParams.byGuid g ∉ (get_weather_update env loc).1) ∧
    ((get_weather_update env loc).1 = [WParams.noParams] ∨
     (get_weather_update env loc).1 =
       [WParams.noParams, WParams.byId ((get_ranch_identifiers loc rs).1.getD 0)]) := by
  have hf : (truthyStr (get_ranch_identifiers loc rs).2 ||
             truthyInt (get_ranch_identifiers loc rs).1) = true := by simp [hg, hi]
  have hp : preferredW (get_ranch_identifiers loc rs) = WParams.noParams := by
    simp [preferredW, hg]
  have hq : fallbackW (get_ranch_identifiers loc rs) =
      WParams.byId ((get_ranch_identifiers loc rs).1.getD 0) := by
    simp [fallbackW, hi]
  cases h1 : wFirstSuccess (env.net (preferredW (get_ranch_identifiers loc rs))) with
  | some st =>
    rw [weather_first_success env loc rs st hr hf h1, hp]
    refine ⟨rfl, ?_, Or.inl rfl⟩
    intro g hmem
    simp at hmem
  | none =>
    rw [weather_fallback env loc rs hr hf h1, hp, hq]
    refine ⟨rfl, ?_, Or.inr rfl⟩
    intro g hmem
    simp at hmem

theorem plantings_repo_no_guid_raises (env : PlantingsEnv) (name : Option String)
    (act : Option Bool) (cti : Option Int) (rs : List Ranch)
    (hr : env.ranches = Except.ok rs)
    (hg : truthyStr (get_ranch_identifiers name rs).2 = false)
    (hi : truthyInt (get_ranch_identifiers name rs).1 = true) :
    get_plantings_for_ranch cropConf env name act cti =
      ([], PyResult.raised "AttributeError: type object 'Config' has no attribute 'PLANTINGS_BY_RANCH_ID'") := by
  have hf : (truthyInt (get_ranch_identifiers name rs).1 ||
             truthyStr (get_ranch_identifiers name rs).2) = true := by simp [hg, hi]
  rw [plantings_no_guid cropConf env name act cti rs hr hf hg,
      plantingsNumeric_missing cropConf env _ _ _ (by decide)]

theorem plantings_no_guid_single (conf : String → Option String) (env : PlantingsEnv)
    (name : Option String) (act : Option Bool) (cti : Option Int) (rs : List Ranch) (u : String)
    (hr : env.ranches = Except.ok rs)
    (hg : truthyStr (get_ranch_identifiers name rs).2 = false)
    (hi : truthyInt (get_ranch_identifiers name rs).1 = true)
    (hc : conf "PLANTINGS_BY_RANCH_ID" = some u) :
    (get_plantings_for_ranch conf env name act cti).1 =
      [PAttempt.byIdPath (get_ranch_identifiers name rs).1 (psOf act cti)] := by
  have hf : (truthyInt (get_ranch_identifiers name rs).1 ||
             truthyStr (get_ranch_identifiers name rs).2) = true := by simp [hg, hi]
  rw [plantings_no_guid conf env name act cti rs hr hf hg]
  cases hn : env.net (PAttempt.byIdPath (get_ranch_identifiers name rs).1 (psOf act cti)) with
  | ok body => rw [plantingsNumeric_ok conf env _ _ _ u body hc hn]; rfl
  | error e => rw [plantingsNumeric_err conf env _ _ _ u e hc hn]; rfl

theorem plantings_no_guid_never_guidPath (conf : String → Option String) (env : PlantingsEnv)
    (name : Option String) (act : Option Bool) (cti : Option Int) (rs : List Ranch)
    (hr : env.ranches = Except.ok rs)
    (hg : truthyStr (get_ranch_identifiers name rs).2 = false)
    (hi : truthyInt (get_ranch_identifiers name rs).1 = true) :
    ∀ (g : String) (ps : PParams),
      PAttempt.guidPath g ps ∉ (get_plantings_for_ranch conf env name act cti).1 := by
  have hf : (truthyInt (get_ranch_identifiers name rs).1 ||
             truthyStr (get_ranch_identifiers name rs).2) = true := by simp [hg, hi]
  rw [plantings_no_guid conf env name act cti rs hr hf hg]
  intro g ps hmem
  rcases plantingsNumeric_shape conf env (get_ranch_identifiers name rs).1 (psOf act cti) []
    with hsh | hsh <;> rw [hsh] at hmem <;> simp at hmem

/-- Ranch list with a numeric id and no GUID. -/
def noGuidList : List Ranch :=
  [⟨some "rio farm", some 5, none⟩]

/-- Station used by the C3 environment. -/
def stationB : WStation := ⟨some "18", some "fog", some "5"⟩

/-- Environment whose parameterless stations request succeeds. -/
def envC3 : WeatherEnv :=
  ⟨Except.ok noGuidList, fun p =>
    match p with
    | WParams.noParams => WResp.resp 200 "" [stationB]
    | _ => WResp.exn "unreachable"⟩

/-- C3 counterexample: `rio farm` resolves with numeric id 5 and no
GUID, yet the weather lookup's only issued stations request carries NO
ranch parameter at all (`params=None`) — it is not the
numeric-ID-addressed request the claim says is the only one issued. -/
theorem C3_counterexample :
    get_ranch_identifiers (some "rio farm") noGuidList = (some 5, none) ∧
    (get_weather_update envC3 (some "rio farm")).1 = [WParams.noParams] := by
  decide

/-- C3 (amended): for an entity resolving to a usable numeric id and no
GUID, no GUID-addressed request is ever made, but: the weather lookup
still issues the stations request first WITHOUT any ranch parameter
(`params=None`) and uses the numeric-addressed request only as the
fallback; the plantings listing issues no request at all under the
repository's `Config` (it raises `AttributeError` looking up the missing
numeric URL attribute), and under a config defining that attribute it
issues exactly the one numeric-ID-addressed request. -/
theorem C3_amended_no_guid_requests :
    (∀ (env : WeatherEnv) (loc : Option String) (rs : List Ranch),
      env.ranches = Except.ok rs →
      truthyStr (get_ranch_identifiers loc rs).2 = false →
      truthyInt (get_ranch_identifiers loc rs).1 = true →
      (get_weather_update env loc).1.head? = some WParams.noParams ∧
      (∀ g, WParams.byGuid g ∉ (get_weather_update env loc).1) ∧
      ((get_weather_update env loc).1 = [WParams.noParams] ∨
       (get_weather_update env loc).1 =
         [WParams.noParams, WParams.byId ((get_ranch_identifiers loc rs).1.getD 0)])) ∧
    (∀ (env : PlantingsEnv) (name : Option String) (act : Option Bool) (cti : Option Int)
        (rs : List Ranch),
      env.ranches = Except.ok rs →
      truthyStr (get_ranch_identifiers name rs).2 = false →
      truthyInt (get_ranch_identifiers name rs).1 = true →
      get_plantings_for_ranch cropConf env name act cti =
        ([], PyResult.raised "AttributeError: type object 'Config' has no attribute 'PLANTINGS_BY_RANCH_ID'")) ∧
    (∀ (conf : String → Option String) (env : PlantingsEnv) (name : Option String)
        (act : Option Bool) (cti : Option Int) (rs : List Ranch) (u : String),
      env.ranches = Except.ok rs →
      truthyStr (get_ranch_identifiers name rs).2 = false →
      truthyInt (get_ranch_identifiers name rs).1 = true →
      conf "PLANTINGS_BY_RANCH_ID" = some u →
      (get_plantings_for_ranch conf env name act cti).1 =
        [PAttempt.byIdPath (get_ranch_identifiers name rs).1 (psOf act cti)]) ∧
    (∀ (conf : String → Option String) (env : PlantingsEnv) (name : Option String)
        (act : Option Bool) (cti : Option Int) (rs : List Ranch),
      env.ranches = Except.ok rs →
      truthyStr (get_ranch_identifiers name rs).2 = false →
      truthyInt (get_ranch_identifiers name rs).1 = true →
      ∀ (g : String) (ps : PParams),
        PAttempt.guidPath g ps ∉ (get_plantings_for_ranch conf env name act cti).1) :=
  ⟨weather_no_guid_shape, plantings_repo_no_guid_raises,
   fun conf env name act cti rs u hr hg hi hc =>
     plantings_no_guid_single conf env name act cti rs u hr hg hi hc,
   plantings_no_guid_never_guidPath⟩

/-- Config table defining only the numeric plantings URL. -/
def confNumOnly : String → Option String := fun a =>
  if a = "PLANTINGS_BY_RANCH_ID" then
    some "https://api.cropmanage.ucanr.edu/v2/plantings/list-by-ranch.json"
  else none

/-- Plantings environment whose requests all succeed. -/
def envP3 : PlantingsEnv :=
  ⟨Except.ok noGuidList, fun _ => Except.ok ["planting-1"]⟩

/-- C3 witness: under a config defining the numeric plantings URL,
listing plantings of `rio farm` (id 5, no GUID) issues exactly the one
numeric-ID-addressed request. -/
theorem C3_witness :
    (get_plantings_for_ranch confNumOnly envP3 (some "rio farm") (some true) none).1 =
      [PAttempt.byIdPath (get_ranch_identifiers (some "rio farm") noGuidList).1
        (psOf (some true) none)] :=
  C3_amended_no_guid_requests.2.2.1 confNumOnly envP3 (some "rio farm") (some true) none
    noGuidList "https://api.cropmanage.ucanr.edu/v2/plantings/list-by-ranch.json"
    rfl (by decide) (by decide) (by decide)

/-! ### Recommendation builders (`api_handler.py` lines 168–213)

Both builders perform two lookup `GET`s (crop types, ranches) whose
`raise_for_status` exceptions are NOT caught, then — if both identifiers
are truthy — one `POST` wrapped in `try/except requests.RequestException`.
JSON numbers in response bodies are modelled as integers, for which
Python's `f"{float(x):.2f}"` renders `toString x ++ ".00"`. -/

/-- Network events of a recommendation call. -/
inductive RecEv where
  | getCropTypes
  | getRanches
  | postRec (cropTypeId : Int) (ranchId : Int)
deriving DecidableEq, Repr

/-- Body of a successful irrigation POST (fields read by the code). -/
structure IrrData where
  RecommendedWater : Option Int
  recommended : Option Int
deriving DecidableEq, Repr

/-- Body of a successful fertilizer POST (fields read by the code). -/
structure FertData where
  amount : Option Int
  Amount : Option Int
  unit : Option String
  Unit : Option String
  nutrient : Option String
  Nutrient : Option String
deriving DecidableEq, Repr

/-- Environment of the recommendation builders: outcomes of the two
lookup `GET`s (an `Except.error` models a raised `RequestException`,
which propagates) and of each recommendation `POST` (an `Except.error`
models the caught `RequestException`, rendered by `str(e)`). -/
structure RecEnv where
  cropTypes : Except String (List CropT)
  ranches : Except String (List Ranch)
  postIrr : Except String IrrData
  postFert : Except String FertData

/-- Python `a or b or 0` on two optional integers. -/
def chooseInt (a b : Option Int) : Int :=
  if truthyInt a then a.getD 0 else if truthyInt b then b.getD 0 else 0

/-- Python `a or b or dflt` on two optional strings. -/
def chooseStr (a b : Option String) (dflt : String) : String :=
  if truthyStr a then a.getD "" else if truthyStr b then b.getD "" else dflt

/-- Rendering of `f"{float(n):.2f}"` for an integer-valued response. -/
def fmt2f (n : Int) : String :=
  toString n ++ ".00"

/-- The success sentence of `get_irrigation_recommendation`. -/
def irrLine (d : IrrData) : String :=
  "Recommended irrigation: " ++ fmt2f (chooseInt d.RecommendedWater d.recommended) ++ " inches"

/-- The success sentence of `get_fertilizer_recommendation`. -/
def fertLine (d : FertData) : String :=
  "Apply " ++ toString (chooseInt d.amount d.Amount) ++ " "
    ++ chooseStr d.unit d.Unit "units" ++ " of " ++ chooseStr d.nutrient d.Nutrient "N"

/-- `get_irrigation_recommendation(crop, location, token)`: network
events issued, paired with the Python result. -/
def get_irrigation_recommendation (env : RecEnv) (crop location : Option String) :
    List RecEv × PyResult String :=
  match env.cropTypes with
  | Except.error e => ([RecEv.getCropTypes], PyResult.raised e)
  | Except.ok crops =>
    let crop_type_id := get_crop_type_id crop crops
    match env.ranches with
    | Except.error e => ([RecEv.getCropTypes, RecEv.getRanches], PyResult.raised e)
    | Except.ok rs =>
      let ranch_id := get_ranch_id location rs
      if !truthyInt crop_type_id || !truthyInt ranch_id then
        ([RecEv.getCropTypes, RecEv.getRanches], PyResult.ret "❌ Invalid crop or location")
      else
        let tr := [RecEv.getCropTypes, RecEv.getRanches,
                   RecEv.postRec (crop_type_id.getD 0) (ranch_id.getD 0)]
        match env.postIrr with
        | Except.error e => (tr, PyResult.ret ("❌ Irrigation recommendation failed: " ++ e))
        | Except.ok d => (tr, PyResult.ret (irrLine d))

/-- `get_fertilizer_recommendation(crop, location, token)`. -/
def get_fertilizer_recommendation (env : RecEnv) (crop location : Option String) :
    List RecEv × PyResult String :=
  match env.cropTypes with
  | Except.error e => ([RecEv.getCropTypes], PyResult.raised e)
  | Except.ok crops =>
    let crop_type_id := get_crop_type_id crop crops
    match env.ranches with
    | Except.error e => ([RecEv.getCropTypes, RecEv.getRanches], PyResult.raised e)
    | Except.ok rs =>
      let ranch_id := get_ranch_id location rs
      if !truthyInt crop_type_id || !truthyInt ranch_id then
        ([RecEv.getCropTypes, RecEv.getRanches], PyResult.ret "❌ Invalid crop or location")
      else
        let tr := [RecEv.getCropTypes, RecEv.getRanches,
                   RecEv.postRec (crop_type_id.getD 0) (ranch_id.getD 0)]
        match env.postFert with
        | Except.error e => (tr, PyResult.ret ("❌ Fertilizer recommendation failed: " ++ e))
        | Except.ok d => (tr, PyResult.ret (fertLine d))

/-! ### Characterisation of the recommendation builders -/

theorem irr_cropTypes_raise (env : RecEnv) (crop loc : Option String) (e : String)
    (hc : env.cropTypes = Except.error e) :
    get_irrigation_recommendation env crop loc = ([RecEv.getCropTypes], PyResult.raised e) := by
  unfold get_irrigation_recommendation
  rw [hc]

theorem irr_ranches_raise (env : RecEnv) (crop loc : Option String) (cs : List CropT) (e : String)
    (hc : env.cropTypes = Except.ok cs) (hr : env.ranches = Except.error e) :
    get_irrigation_recommendation env crop loc =
      ([RecEv.getCropTypes, RecEv.getRanches], PyResult.raised e) := by
  unfold get_irrigation_recommendation
  rw [hc]
  simp only []
  rw [hr]

theorem irr_invalid (env : RecEnv) (crop loc : Option String) (cs : List CropT) (rs : List Ranch)
    (hc : env.cropTypes = Except.ok cs) (hr : env.ranches = Except.ok rs)
    (hid : truthyInt (get_crop_type_id crop cs) = false ∨ truthyInt (get_ranch_id loc rs) = false) :
    get_irrigation_recommendation env crop loc =
      ([RecEv.getCropTypes, RecEv.getRanches], PyResult.ret "❌ Invalid crop or location") := by
  unfold get_irrigation_recommendation
  rw [hc]
  simp only []
  rw [hr]
  rcases hid with h | h <;> simp [h]

theorem irr_post (env : RecEnv) (crop loc : Option String) (cs : List CropT) (rs : List Ranch)
    (hc : env.cropTypes = Except.ok cs) (hr : env.ranches = Except.ok rs)
    (h1 : truthyInt (get_crop_type_id crop cs) = true)
    (h2 : truthyInt (get_ranch_id loc rs) = true) :
    get_irrigation_recommendation env crop loc =
      ([RecEv.getCropTypes, RecEv.getRanches,
        RecEv.postRec ((get_crop_type_id crop cs).getD 0) ((get_ranch_id loc rs).getD 0)],
       match env.postIrr with
       | Except.error e => PyResult.ret ("❌ Irrigation recommendation failed: " ++ e)
       | Except.ok d => PyResult.ret (irrLine d)) := by
  unfold get_irrigation_recommendation
  rw [hc]
  simp only []
  rw [hr]
  simp only [h1, h2, Bool.not_true, Bool.or_self, Bool.false_or, if_false]
  cases env.postIrr <;> rfl

theorem fert_cropTypes_raise (env : RecEnv) (crop loc : Option String) (e : String)
    (hc : env.cropTypes = Except.error e) :
    get_fertilizer_recommendation env crop loc = ([RecEv.getCropTypes], PyResult.raised e) := by
  unfold get_fertilizer_recommendation
  rw [hc]

theorem fert_ranches_raise (env : RecEnv) (crop loc : Option String) (cs : List CropT) (e : String)
    (hc : env.cropTypes = Except.ok cs) (hr : env.ranches = Except.error e) :
    get_fertilizer_recommendation env crop loc =
      ([RecEv.getCropTypes, RecEv.getRanches], PyResult.raised e) := by
  unfold get_fertilizer_recommendation
  rw [hc]
  simp only []
  rw [hr]

theorem fert_invalid (env : RecEnv) (crop loc : Option String) (cs : List CropT) (rs : List Ranch)
    (hc : env.cropTypes = Except.ok cs) (hr : env.ranches = Except.ok rs)
    (hid : truthyInt (get_crop_type_id crop cs) = false ∨ truthyInt (get_ranch_id loc rs) = false) :
    get_fertilizer_recommendation env crop loc =
      ([RecEv.getCropTypes, RecEv.getRanches], PyResult.ret "❌ Invalid crop or location") := by
  unfold get_fertilizer_recommendation
  rw [hc]
  simp only []
  rw [hr]
  rcases hid with h | h <;> simp [h]

theorem fert_post (env : RecEnv) (crop loc : Option String) (cs : List CropT) (rs : List Ranch)
    (hc : env.cropTypes = Except.ok cs) (hr : env.ranches = Except.ok rs)
    (h1 : truthyInt (get_crop_type_id crop cs) = true)
    (h2 : truthyInt (get_ranch_id loc rs) = true) :
    get_fertilizer_recommendation env crop loc =
      ([RecEv.getCropTypes, RecEv.getRanches,
        RecEv.postRec ((get_crop_type_id crop cs).getD 0) ((get_ranch_id loc rs).getD 0)],
       match env.postFert with
       | Except.error e => PyResult.ret ("❌ Fertilizer recommendation failed: " ++ e)
       | Except.ok d => PyResult.ret (fertLine d)) := by
  unfold get_fertilizer_recommendation
  rw [hc]
  simp only []
  rw [hr]
  simp only [h1, h2, Bool.not_true, Bool.or_self, Bool.false_or, if_false]
  cases env.postFert <;> rfl

/-! ### C6 and C7: error handling of the recommendation builders -/

theorem irr_never_raises (env : RecEnv) (crop loc : Option String)
    (cs : List CropT) (rs : List Ranch)
    (hc : env.cropTypes = Except.ok cs) (hr : env.ranches = Except.ok rs) :
    ∃ s, (get_irrigation_recommendation env crop loc).2 = PyResult.ret s := by
  cases h1 : truthyInt (get_crop_type_id crop cs) with
  | false => rw [irr_invalid env crop loc cs rs hc hr (Or.inl h1)]; exact ⟨_, rfl⟩
  | true =>
    cases h2 : truthyInt (get_ranch_id loc rs) with
    | false => rw [irr_invalid env crop loc cs rs hc hr (Or.inr h2)]; exact ⟨_, rfl⟩
    | true =>
      rw [irr_post env crop loc cs rs hc hr h1 h2]
      cases env.postIrr <;> exact ⟨_, rfl⟩

theorem fert_never_raises (env : RecEnv) (crop loc : Option String)
    (cs : List CropT) (rs : List Ranch)
    (hc : env.cropTypes = Except.ok cs) (hr : env.ranches = Except.ok rs) :
    ∃ s, (get_fertilizer_recommendation env crop loc).2 = PyResult.ret s := by
  cases h1 : truthyInt (get_crop_type_id crop cs) with
  | false => rw [fert_invalid env crop loc cs rs hc hr (Or.inl h1)]; exact ⟨_, rfl⟩
  | true =>
    cases h2 : truthyInt (get_ranch_id loc rs) with
    | false => rw [fert_invalid env crop loc cs rs hc hr (Or.inr h2)]; exact ⟨_, rfl⟩
    | true =>
      rw [fert_post env crop loc cs rs hc hr h1 h2]
      cases env.postFert <;> exact ⟨_, rfl⟩

theorem irr_post_err_msg (env : RecEnv) (crop loc : Option String)
    (cs : List CropT) (rs : List Ranch) (e : String)
    (hc : env.cropTypes = Except.ok cs) (hr : env.ranches = Except.ok rs)
    (h1 : truthyInt (get_crop_type_id crop cs) = true)
    (h2 : truthyInt (get_ranch_id loc rs) = true)
    (hp : env.postIrr = Except.error e) :
    (get_irrigation_recommendation env crop loc).2 =
      PyResult.ret ("❌ Irrigation recommendation failed: " ++ e) := by
  rw [irr_post env crop loc cs rs hc hr h1 h2]
  simp only []
  rw [hp]

theorem fert_post_err_msg (env : RecEnv) (crop loc : Option String)
    (cs : List CropT) (rs : List Ranch) (e : String)
    (hc : env.cropTypes = Except.ok cs) (hr : env.ranches = Except.ok rs)
    (h1 : truthyInt (get_crop_type_id crop cs) = true)
    (h2 : truthyInt (get_ranch_id loc rs) = true)
    (hp : env.postFert = Except.error e) :
    (get_fertilizer_recommendation env crop loc).2 =
      PyResult.ret ("❌ Fertilizer recommendation failed: " ++ e) := by
  rw [fert_post env crop loc cs rs hc hr h1 h2]
  simp only []
  rw [hp]

/-- Environment whose crop-type lookup `GET` raises a transport
exception. -/
def envC6 : RecEnv :=
  ⟨Except.error "ConnectionError: timed out", Except.ok [], Except.ok ⟨none, none⟩,
   Except.ok ⟨none, none, none, none, none, none⟩⟩

/-- C6 counterexample: a transport failure in the crop-type lookup
performed by the builders is NOT caught — both
`get_irrigation_recommendation` and `get_fertilizer_recommendation`
propagate the raw exception to their caller, refuting the claim that
every transport failure arising during a recommendation request
(including the lookups) is converted to a descriptive string. -/
theorem C6_counterexample :
    (get_irrigation_recommendation envC6 (some "lettuce") (some "pryor ranch")).2 =
      PyResult.raised "ConnectionError: timed out" ∧
    (get_fertilizer_recommendation envC6 (some "lettuce") (some "pryor ranch")).2 =
      PyResult.raised "ConnectionError: timed out" := by
  decide

/-- C6 (amended): transport failures of the recommendation POST itself
are always caught and converted into a descriptive failure string —
once the two lookup `GET`s have returned, neither builder can raise —
but a transport failure inside the crop-type or ranch lookup `GET`s
propagates to the caller as a raw exception. -/
theorem C6_amended_error_conversion :
    (∀ (env : RecEnv) (crop loc : Option String) (cs : List CropT) (rs : List Ranch),
      env.cropTypes = Except.ok cs → env.ranches = Except.ok rs →
      ∃ s, (get_irrigation_recommendation env crop loc).2 = PyResult.ret s) ∧
    (∀ (env : RecEnv) (crop loc : Option String) (cs : List CropT) (rs : List Ranch),
      env.cropTypes = Except.ok cs → env.ranches = Except.ok rs →
      ∃ s, (get_fertilizer_recommendation env crop loc).2 = PyResult.ret s) ∧
    (∀ (env : RecEnv) (crop loc : Option String) (cs : List CropT) (rs : List Ranch) (e : String),
      env.cropTypes = Except.ok cs → env.ranches = Except.ok rs →
      truthyInt (get_crop_type_id crop cs) = true →
      truthyInt (get_ranch_id loc rs) = true →
      env.postIrr = Except.error e →
      (get_irrigation_recommendation env crop loc).2 =
        PyResult.ret ("❌ Irrigation recommendation failed: " ++ e)) ∧
    (∀ (env : RecEnv) (crop loc : Option String) (cs : List CropT) (rs : List Ranch) (e : String),
      env.cropTypes = Except.ok cs → env.ranches = Except.ok rs →
      truthyInt (get_crop_type_id crop cs) = true →
      truthyInt (get_ranch_id loc rs) = true →
      env.postFert = Except.error e →
      (get_fertilizer_recommendation env crop loc).2 =
        PyResult.ret ("❌ Fertilizer recommendation failed: " ++ e)) ∧
    (∀ (env : RecEnv) (crop loc : Option String) (e : String),
      env.cropTypes = Except.error e →
      (get_irrigation_recommendation env crop loc).2 = PyResult.raised e ∧
      (get_fertilizer_recommendation env crop loc).2 = PyResult.raised e) ∧
    (∀ (env : RecEnv) (crop loc : Option String) (cs : List CropT) (e : String),
      env.cropTypes = Except.ok cs → env.ranches = Except.error e →
      (get_irrigation_recommendation env crop loc).2 = PyResult.raised e ∧
      (get_fertilizer_recommendation env crop loc).2 = PyResult.raised e) :=
  ⟨irr_never_raises, fert_never_raises, irr_post_err_msg, fert_post_err_msg,
   fun env crop loc e hc =>
     ⟨by rw [irr_cropTypes_raise env crop loc e hc],
      by rw [fert_cropTypes_raise env crop loc e hc]⟩,
   fun env crop loc cs e hc hr =>
     ⟨by rw [irr_ranches_raise env crop loc cs e hc hr],
      by rw [fert_ranches_raise env crop loc cs e hc hr]⟩⟩

/-- Crop-type list with a single valid crop. -/
def lettuceCrops : List CropT :=
  [⟨some "Lettuce", some 7, none⟩]

/-- Environment in which both lookups succeed and both POSTs raise a
caught transport exception. -/
def envC6w : RecEnv :=
  ⟨Except.ok lettuceCrops, Except.ok pryorList,
   Except.error "ReadTimeout: read timed out",
   Except.error "ReadTimeout: read timed out"⟩

/-- C6 witness: with resolvable crop and ranch, a failed irrigation
POST is converted into the descriptive failure string. -/
theorem C6_witness :
    (get_irrigation_recommendation envC6w (some "lettuce") (some "Pryor Ranch")).2 =
      PyResult.ret ("❌ Irrigation recommendation failed: " ++ "ReadTimeout: read timed out") :=
  C6_amended_error_conversion.2.2.1 envC6w (some "lettuce") (some "Pryor Ranch")
    lettuceCrops pryorList "ReadTimeout: read timed out" rfl rfl (by decide) (by decide) rfl

/-- C7: if either the crop or the ranch resolution completes without a
usable (truthy) identifier, both builders return the structured
"invalid crop or location" error and never issue the recommendation
POST. -/
theorem C7_invalid_resolution_no_post :
    ∀ (env : RecEnv) (crop loc : Option String) (cs : List CropT) (rs : List Ranch),
      env.cropTypes = Except.ok cs → env.ranches = Except.ok rs →
      (truthyInt (get_crop_type_id crop cs) = false ∨
       truthyInt (get_ranch_id loc rs) = false) →
      (get_irrigation_recommendation env crop loc).2 = PyResult.ret "❌ Invalid crop or location" ∧
      (get_fertilizer_recommendation env crop loc).2 = PyResult.ret "❌ Invalid crop or location" ∧
      (∀ c r, RecEv.postRec c r ∉ (get_irrigation_recommendation env crop loc).1) ∧
      (∀ c r, RecEv.postRec c r ∉ (get_fertilizer_recommendation env crop loc).1) := by
  intro env crop loc cs rs hc hr hid
  rw [irr_invalid env crop loc cs rs hc hr hid, fert_invalid env crop loc cs rs hc hr hid]
  refine ⟨rfl, rfl, ?_, ?_⟩ <;> intro c r hmem <;> simp at hmem

/-- Environment with an empty crop-type listing. -/
def envC7 : RecEnv :=
  ⟨Except.ok [], Except.ok pryorList, Except.ok ⟨none, none⟩,
   Except.ok ⟨none, none, none, none, none, none⟩⟩

/-- C7 witness: an unknown crop yields the structured error (and, per
the theorem, no POST). -/
theorem C7_witness :
    (get_irrigation_recommendation envC7 (some "dragonfruit") (some "Pryor Ranch")).2 =
      PyResult.ret "❌ Invalid crop or location" :=
  (C7_invalid_resolution_no_post envC7 (some "dragonfruit") (some "Pryor Ranch") [] pryorList
    rfl rfl (Or.inl (by decide))).1

/-! ### `chat_patch.py` — diff validation and whitespace sanitisation -/

/-- The four structural tokens checked by `ensure_valid_unified_diff`. -/
def tokenList : List String :=
  ["diff --git", "--- a/", "+++ b/", "@@"]

/-- `ensure_valid_unified_diff(patch)` (lines 75–79): `False` on an
empty/falsy string, else `all(t in patch for t in tokens)`. -/
def ensure_valid_unified_diff (patch : String) : Bool :=
  if patch = "" then false
  else tokenList.all (fun t => pyIn t patch)

/-- Space or tab — the character class `[ \t]` of the sanitiser. -/
def isBlank (c : Char) : Bool :=
  c == ' ' || c == '\t'

/-- Does the list start with a line feed? -/
def headIsNL : List Char → Bool
  | [] => false
  | d :: _ => d == '\n'

/-- Does the list start with `\r?\n` (the tail of the regex
`[ \t]+(\r?\n)`)? -/
def endsLB : List Char → Bool
  | [] => false
  | c :: rest => c == '\n' || (c == '\r' && headIsNL rest)

/-- Character-level semantics of
`re.sub(r"[ \t]+(\r?\n)", r"\1", patch)`: a blank is deleted exactly
when the blanks following it are immediately followed by `\r?\n`
(equivalently, every maximal `[ \t]+` run immediately followed by
`\r?\n` is deleted, which is what the leftmost-longest `re.sub` does). -/
def sanitizeL : List Char → List Char
  | [] => []
  | c :: rest =>
    if isBlank c && endsLB (rest.dropWhile isBlank) then sanitizeL rest
    else c :: sanitizeL rest

/-- `sanitize_patch_whitespace(patch)` (lines 81–82). -/
def sanitize_patch_whitespace (patch : String) : String :=
  String.mk (sanitizeL patch.data)

/-! ### `chat_patch.py` — the apply/commit/push chain as an event trace

`main` and `apply_patch_and_push` are modelled as functions from an
environment (outcomes of the model calls and of each `run(...)`
subprocess) to the ordered list of observable actions: model calls
(carrying the full user prompt), `git apply` attempts (carrying the
patch text and whether `--3way` was passed), git config/add/commit/push,
and posted comments (carrying the body).  The ancillary `git diff`
invocations that compute the diff and the changed-file list are
summarised by the environment's `diff`/`file_ctx` fields. -/

/-- Observable actions of the bot. -/
inductive Ev where
  | modelCall (prompt : String)
  | applyAttempt (threeWay : Bool) (patch : String)
  | gitConfig
  | gitAdd
  | gitCommit
  | gitPush
  | postComment (body : String)
deriving DecidableEq, Repr

/-- A `subprocess.CompletedProcess` as read by the script. -/
structure RunRes where
  returncode : Int
  stdout : String
  stderr : String
deriving DecidableEq, Repr

/-- Outcomes of the git subprocesses used by `apply_patch_and_push`,
plus the reject files found by `dump_rejects_as_comment` (path and
content of each `**/*.rej`, empty when the `ls` found none). -/
structure GitEnv where
  strictRes : RunRes
  threeRes : RunRes
  commitRes : RunRes
  pushRes : RunRes
  rejFiles : List (String × String)
deriving DecidableEq, Repr

/-- The rejection comment body (lines 162–170): both apply attempts'
`stderr or stdout`, then the proposed patch truncated to 65000. -/
def rejectMsg (r1 r2 : RunRes) (patch_text : String) : String :=
  "❌ Patch failed to apply.\n\n**git apply output:**\n```\n"
    ++ pyOrS r1.stderr r1.stdout
    ++ "\n-- 3way --\n"
    ++ pyOrS r2.stderr r2.stdout
    ++ "\n```\n\n**Proposed patch (save as patch.diff and run `git apply --3way patch.diff`)**:\n```diff\n"
    ++ pyTake patch_text 65000
    ++ "\n```"

/-- The "nothing to commit" comment body (line 180). -/
def nothingMsg : String :=
  "ℹ️ Nothing to commit (patch was empty or already applied)."

/-- The success comment body (line 184). -/
def successMsg : String :=
  "✅ Patch applied by Chat Fix Bot."

/-- `dump_rejects_as_comment`: posts the found `.rej` files (truncated
to 65000) as one comment, nothing when none were found. -/
def dump_rejects (g : GitEnv) : List Ev :=
  if g.rejFiles = [] then []
  else
    [Ev.postComment ("**Reject files (.rej)**:\n```\n"
      ++ pyTake (String.join (g.rejFiles.map
           (fun fc => "\n--- " ++ fc.1 ++ " ---\n" ++ fc.2 ++ "\n"))) 65000
      ++ "\n```")]

/-- Lines 174–184: configure the bot identity, stage everything,
commit; a failing commit means nothing was staged and yields the
distinct "nothing to commit" comment (no push); otherwise push, and
comment success when the push succeeded. -/
def commit_and_push (g : GitEnv) : List Ev :=
  [Ev.gitConfig, Ev.gitConfig, Ev.gitAdd, Ev.gitCommit] ++
    (if g.commitRes.returncode ≠ 0 then [Ev.postComment nothingMsg]
     else Ev.gitPush ::
       (if g.pushRes.returncode = 0 then [Ev.postComment successMsg] else []))

/-- `apply_patch_and_push(patch_text)` (lines 151–184): strict apply
first; on failure a `--3way` apply; on double failure the rejection
comment plus the reject-file dump and no commit/push; on either success
the commit/push tail. -/
def apply_patch_and_push (g : GitEnv) (patch_text : String) : List Ev :=
  Ev.applyAttempt false patch_text ::
    (if g.strictRes.returncode ≠ 0 then
      Ev.applyAttempt true patch_text ::
        (if g.threeRes.returncode ≠ 0 then
          Ev.postComment (rejectMsg g.strictRes g.threeRes patch_text) :: dump_rejects g
         else commit_and_push g)
     else commit_and_push g)

/-- The fixed rules block of `ask_model_for_patch` (lines 115–124). -/
def rulesText : String :=
  "\nFix CropManage API endpoint integration using these rules:\n1) List ranches: GET /v2/ranches.json\n2) List plantings for a ranch (prefer): GET /v2/ranches/{Ranch_External_GUID}/plantings.json?active=true\n   Fallback numeric: GET /v2/plantings/list-by-ranch.json?ranchId={numericId}&active=true\n3) Ranch objects from /v2/ranches.json contain Name, Id, and may include Ranch_External_GUID.\n4) Normalize ranch name comparisons with .strip().lower().\n5) Do NOT produce whitespace-only diffs.\n6) Return a valid unified diff ONLY; no explanations or extra text.\n"

/-- The context block of `ask_model_for_patch` (lines 127–138): PR
body and triggering comment (with `(empty)`/`(none)` placeholders) and
the diff; only on `attempt > 1` with a non-empty file context, the
changed files' current content, each capped to 50000 characters and at
most 20 files. -/
def build_ctx (diff_text pr_body user_hint : String)
    (file_context : List (String × String)) (attempt : Nat) : String :=
  let ctx := "Pull Request description:\n" ++ pyOrS pr_body "(empty)" ++ "\n\n"
    ++ "Triggering comment:\n" ++ pyOrS user_hint "(none)" ++ "\n\n"
    ++ "Base..Head unified diff:\n" ++ diff_text
  if 1 < attempt ∧ file_context ≠ [] then
    ctx ++ "\n\nChanged files (current HEAD content follows):\n"
      ++ String.join ((file_context.take 20).map (fun pc =>
           "\n----- BEGIN FILE: " ++ pc.1 ++ " -----\n" ++ pyTake pc.2 50000
             ++ "\n----- END FILE: " ++ pc.1 ++ " -----\n"))
  else ctx

/-- The full user message sent to the model (line 145):
`rules + "\n\n" + ctx`. -/
def ask_prompt (diff_text pr_body user_hint : String)
    (file_context : List (String × String)) (attempt : Nat) : String :=
  rulesText ++ "\n\n" ++ build_ctx diff_text pr_body user_hint file_context attempt

/-- Environment of `main`: the PR diff and texts, the changed-file
contents, the model's output per attempt, and the git outcomes. -/
structure BotEnv where
  diff : String
  pr_body : String
  comment_body : String
  file_ctx : List (String × String)
  modelOut : Nat → String
  git : GitEnv

/-- The invalid-output comment body (lines 216–217). -/
def invalidMsg (patch2 : String) : String :=
  "⚠️ Model did not return a valid unified diff. Skipping apply.\n\n```text\n"
    ++ pyTake patch2 65000 ++ "\n```"

/-- The empty-diff comment body (line 200). -/
def emptyDiffMsg : String :=
  "ℹ️ No changes to patch (diff is empty)."

/-- `main()` (lines 187–221) from the point the PR data is available:
empty diff short-circuits; attempt 1 is prompted WITHOUT file context;
attempt 2 happens only when attempt 1's output fails validation and is
prompted WITH the file context; a validated patch is sanitised and
handed to `apply_patch_and_push`; two invalid outputs end in the
invalid-output comment with no apply. -/
def chat_main (env : BotEnv) : List Ev :=
  if pyStrip env.diff = "" then [Ev.postComment emptyDiffMsg]
  else
    let patch1 := env.modelOut 1
    if ensure_valid_unified_diff patch1 then
      Ev.modelCall (ask_prompt env.diff env.pr_body env.comment_body [] 1) ::
        apply_patch_and_push env.git (sanitize_patch_whitespace patch1)
    else
      let patch2 := env.modelOut 2
      if ensure_valid_unified_diff patch2 then
        Ev.modelCall (ask_prompt env.diff env.pr_body env.comment_body [] 1) ::
          Ev.modelCall (ask_prompt env.diff env.pr_body env.comment_body env.file_ctx 2) ::
            apply_patch_and_push env.git (sanitize_patch_whitespace patch2)
      else
        [Ev.modelCall (ask_prompt env.diff env.pr_body env.comment_body [] 1),
         Ev.modelCall (ask_prompt env.diff env.pr_body env.comment_body env.file_ctx 2),
         Ev.postComment (invalidMsg patch2)]

/-- Number of `git apply` invocations in a trace. -/
def countApply (tr : List Ev) : Nat :=
  (tr.filter (fun e => match e with | Ev.applyAttempt _ _ => true | _ => false)).length

/-- The prompts of the model calls in a trace, in order. -/
def callsOf (tr : List Ev) : List String :=
  tr.filterMap (fun e => match e with | Ev.modelCall p => some p | _ => none)

/-! ### C4: validation predicate and the no-apply guarantee -/

theorem data_append (s t : String) : (s ++ t).data = s.data ++ t.data :=
  rfl

theorem hasSub_iff_occurs (needle hay : List Char) :
    hasSub needle hay = true ↔ needle <:+: hay := by
  induction hay with
  | nil =>
    simp [hasSub, List.isEmpty_iff]
  | cons c rest ih =>
    rw [hasSub, Bool.or_eq_true, List.isPrefixOf_iff_prefix, ih, List.infix_cons_iff]

theorem pyIn_iff_occurs (t s : String) :
    pyIn t s = true ↔ t.data <:+: s.data :=
  hasSub_iff_occurs t.data s.data

theorem ensure_valid_iff (p : String) :
    ensure_valid_unified_diff p = true ↔
      (p ≠ "" ∧ ∀ t ∈ tokenList, t.data <:+: p.data) := by
  unfold ensure_valid_unified_diff
  by_cases hp : p = ""
  · simp [hp]
  · rw [if_neg hp, List.all_eq_true]
    constructor
    · intro h
      exact ⟨hp, fun t ht => (pyIn_iff_occurs t p).mp (h t ht)⟩
    · intro h t ht
      exact (pyIn_iff_occurs t p).mpr (h.2 t ht)

theorem chat_main_all_invalid (env : BotEnv)
    (hd : ¬ pyStrip env.diff = "")
    (h1 : ensure_valid_unified_diff (env.modelOut 1) = false)
    (h2 : ensure_valid_unified_diff (env.modelOut 2) = false) :
    chat_main env =
      [Ev.modelCall (ask_prompt env.diff env.pr_body env.comment_body [] 1),
       Ev.modelCall (ask_prompt env.diff env.pr_body env.comment_body env.file_ctx 2),
       Ev.postComment (invalidMsg (env.modelOut 2))] := by
  unfold chat_main
  rw [if_neg hd]
  simp only [h1, h2, Bool.false_eq_true, if_false]

/-- C4: `ensure_valid_unified_diff` accepts exactly the non-empty
strings containing all four structural tokens, and a run in which both
model outputs fail the check makes zero apply attempts, reporting the
invalid output truncated to the fixed 65000-character budget instead. -/
theorem C4_validation_gate :
    (∀ p, ensure_valid_unified_diff p = true ↔
      (p ≠ "" ∧ ∀ t ∈ tokenList, t.data <:+: p.data)) ∧
    (∀ env : BotEnv, ¬ pyStrip env.diff = "" →
      ensure_valid_unified_diff (env.modelOut 1) = false →
      ensure_valid_unified_diff (env.modelOut 2) = false →
      countApply (chat_main env) = 0 ∧
      chat_main env =
        [Ev.modelCall (ask_prompt env.diff env.pr_body env.comment_body [] 1),
         Ev.modelCall (ask_prompt env.diff env.pr_body env.comment_body env.file_ctx 2),
         Ev.postComment (invalidMsg (env.modelOut 2))]) :=
  ⟨ensure_valid_iff,
   fun env hd h1 h2 =>
     ⟨by rw [countApply, chat_main_all_invalid env hd h1 h2]; rfl,
      chat_main_all_invalid env hd h1 h2⟩⟩

/-- Git environment in which every subprocess succeeds. -/
def gitEnvOk : GitEnv :=
  ⟨⟨0, "", ""⟩, ⟨0, "", ""⟩, ⟨0, "", ""⟩, ⟨0, "", ""⟩, []⟩

/-- Bot environment whose model returns garbage on both attempts. -/
def envC4 : BotEnv :=
  ⟨"x", "", "", [], fun _ => "not a diff", gitEnvOk⟩

/-- C4 witness: with a non-empty diff and two invalid model outputs,
the run makes zero apply attempts and posts the truncated invalid
output. -/
theorem C4_witness :
    countApply (chat_main envC4) = 0 ∧
    chat_main envC4 =
      [Ev.modelCall (ask_prompt envC4.diff envC4.pr_body envC4.comment_body [] 1),
       Ev.modelCall (ask_prompt envC4.diff envC4.pr_body envC4.comment_body envC4.file_ctx 2),
       Ev.postComment (invalidMsg (envC4.modelOut 2))] :=
  C4_validation_gate.2 envC4 (by decide) (by decide) (by decide)

/-! ### C5: the two-step apply chain and its rejection diagnostics -/

theorem commit_and_push_no_apply (g : GitEnv) :
    ∀ (tw : Bool) (q : String), Ev.applyAttempt tw q ∉ commit_and_push g := by
  intro tw q h
  unfold commit_and_push at h
  split at h
  · simp_all
  · split at h <;> simp_all

theorem commit_and_push_no_commit_comment (g : GitEnv) :
    Ev.gitCommit ∈ commit_and_push g := by
  unfold commit_and_push
  split <;> simp

theorem dump_rejects_only_comments (g : GitEnv) :
    ∀ x ∈ dump_rejects g, ∃ b, x = Ev.postComment b := by
  intro x hx
  unfold dump_rejects at hx
  split at hx
  · simp_all
  · simp_all

theorem countApply_commit (g : GitEnv) : countApply (commit_and_push g) = 0 := by
  unfold commit_and_push
  split
  · rfl
  · split <;> rfl

theorem countApply_dump (g : GitEnv) : countApply (dump_rejects g) = 0 := by
  unfold dump_rejects
  split <;> rfl

theorem apply_strict_ok (g : GitEnv) (p : String) (hs : g.strictRes.returncode = 0) :
    apply_patch_and_push g p = Ev.applyAttempt false p :: commit_and_push g := by
  unfold apply_patch_and_push
  rw [if_neg (by simp [hs])]

theorem apply_three_ok (g : GitEnv) (p : String)
    (hs : g.strictRes.returncode ≠ 0) (ht : g.threeRes.returncode = 0) :
    apply_patch_and_push g p =
      Ev.applyAttempt false p :: Ev.applyAttempt true p :: commit_and_push g := by
  unfold apply_patch_and_push
  rw [if_pos hs, if_neg (by simp [ht])]

theorem apply_both_fail (g : GitEnv) (p : String)
    (hs : g.strictRes.returncode ≠ 0) (ht : g.threeRes.returncode ≠ 0) :
    apply_patch_and_push g p =
      Ev.applyAttempt false p :: Ev.applyAttempt true p ::
        Ev.postComment (rejectMsg g.strictRes g.threeRes p) :: dump_rejects g := by
  unfold apply_patch_and_push
  rw [if_pos hs, if_pos ht]

theorem countApply_cons_apply (tw : Bool) (q : String) (tr : List Ev) :
    countApply (Ev.applyAttempt tw q :: tr) = countApply tr + 1 := by
  simp [countApply, List.filter_cons]

theorem countApply_cons_comment (b : String) (tr : List Ev) :
    countApply (Ev.postComment b :: tr) = countApply tr := by
  simp [countApply, List.filter_cons]

theorem countApply_apply_le_two (g : GitEnv) (p : String) :
    countApply (apply_patch_and_push g p) ≤ 2 := by
  by_cases hs : g.strictRes.returncode = 0
  · rw [apply_strict_ok g p hs, countApply_cons_apply, countApply_commit]
    omega
  · by_cases ht : g.threeRes.returncode = 0
    · rw [apply_three_ok g p hs ht, countApply_cons_apply, countApply_cons_apply,
          countApply_commit]
    · rw [apply_both_fail g p hs ht, countApply_cons_apply, countApply_cons_apply,
          countApply_cons_comment, countApply_dump]

theorem rejectMsg_contains (r1 r2 : RunRes) (p : String) :
    (pyOrS r1.stderr r1.stdout).data <:+: (rejectMsg r1 r2 p).data ∧
    (pyOrS r2.stderr r2.stdout).data <:+: (rejectMsg r1 r2 p).data ∧
    (pyTake p 65000).data <:+: (rejectMsg r1 r2 p).data := by
  refine ⟨⟨"❌ Patch failed to apply.\n\n**git apply output:**\n```\n".data,
    ("\n-- 3way --\n" ++ pyOrS r2.stderr r2.stdout
      ++ "\n```\n\n**Proposed patch (save as patch.diff and run `git apply --3way patch.diff`)**:\n```diff\n"
      ++ pyTake p 65000 ++ "\n```").data, ?_⟩,
    ⟨("❌ Patch failed to apply.\n\n**git apply output:**\n```\n" ++ pyOrS r1.stderr r1.stdout
        ++ "\n-- 3way --\n").data,
      ("\n```\n\n**Proposed patch (save as patch.diff and run `git apply --3way patch.diff`)**:\n```diff\n"
        ++ pyTake p 65000 ++ "\n```").data, ?_⟩,
    ⟨("❌ Patch failed to apply.\n\n**git apply output:**\n```\n" ++ pyOrS r1.stderr r1.stdout
        ++ "\n-- 3way --\n" ++ pyOrS r2.stderr r2.stdout
        ++ "\n```\n\n**Proposed patch (save as patch.diff and run `git apply --3way patch.diff`)**:\n```diff\n").data,
      "\n```".data, ?_⟩⟩ <;>
  simp [rejectMsg, data_append, List.append_assoc]

/-- C5: at most two apply attempts per candidate — the strict apply
first, the three-way apply only after the strict one failed (never when
it succeeded) — and when both fail the bot posts the rejection
diagnostic containing both attempts' raw `stderr or stdout` and the
patch text truncated to 65000, performing no commit and no push. -/
theorem C5_two_step_apply :
    (∀ (g : GitEnv) (p : String), countApply (apply_patch_and_push g p) ≤ 2) ∧
    (∀ (g : GitEnv) (p : String), g.strictRes.returncode = 0 →
      apply_patch_and_push g p = Ev.applyAttempt false p :: commit_and_push g ∧
      (∀ q, Ev.applyAttempt true q ∉ apply_patch_and_push g p) ∧
      countApply (apply_patch_and_push g p) = 1) ∧
    (∀ (g : GitEnv) (p : String), g.strictRes.returncode ≠ 0 → g.threeRes.returncode ≠ 0 →
      apply_patch_and_push g p =
        Ev.applyAttempt false p :: Ev.applyAttempt true p ::
          Ev.postComment (rejectMsg g.strictRes g.threeRes p) :: dump_rejects g ∧
      Ev.gitCommit ∉ apply_patch_and_push g p ∧
      Ev.gitPush ∉ apply_patch_and_push g p ∧
      (pyOrS g.strictRes.stderr g.strictRes.stdout).data <:+:
        (rejectMsg g.strictRes g.threeRes p).data ∧
      (pyOrS g.threeRes.stderr g.threeRes.stdout).data <:+:
        (rejectMsg g.strictRes g.threeRes p).data ∧
      (pyTake p 65000).data <:+: (rejectMsg g.strictRes g.threeRes p).data) := by
  refine ⟨countApply_apply_le_two, ?_, ?_⟩
  · intro g p hs
    refine ⟨apply_strict_ok g p hs, ?_, ?_⟩
    · intro q hmem
      rw [apply_strict_ok g p hs] at hmem
      rcases List.mem_cons.mp hmem with h | h
      · simp at h
      · exact commit_and_push_no_apply g true q h
    · rw [apply_strict_ok g p hs, countApply_cons_apply, countApply_commit]
  · intro g p hs ht
    have htr := apply_both_fail g p hs ht
    refine ⟨htr, ?_, ?_, (rejectMsg_contains _ _ _).1, (rejectMsg_contains _ _ _).2.1,
      (rejectMsg_contains _ _ _).2.2⟩
    · rw [htr]
      intro hmem
      rcases List.mem_cons.mp hmem with h | h
      · exact Ev.noConfusion h
      rcases List.mem_cons.mp h with h | h
      · exact Ev.noConfusion h
      rcases List.mem_cons.mp h with h | h
      · exact Ev.noConfusion h
      · obtain ⟨b, hb⟩ := dump_rejects_only_comments g _ h
        exact Ev.noConfusion hb
    · rw [htr]
      intro hmem
      rcases List.mem_cons.mp hmem with h | h
      · exact Ev.noConfusion h
      rcases List.mem_cons.mp h with h | h
      · exact Ev.noConfusion h
      rcases List.mem_cons.mp h with h | h
      · exact Ev.noConfusion h
      · obtain ⟨b, hb⟩ := dump_rejects_only_comments g _ h
        exact Ev.noConfusion hb

/-- Git environment in which both apply attempts fail. -/
def gitEnvFail : GitEnv :=
  ⟨⟨1, "", "error: patch failed"⟩, ⟨1, "", "error: 3way failed"⟩,
   ⟨0, "", ""⟩, ⟨0, "", ""⟩, []⟩

/-- C5 witness: with both apply attempts failing, the trace is the two
attempts followed by the rejection comment (whose body contains both
error outputs and the truncated patch), with no commit and no push. -/
theorem C5_witness :
    apply_patch_and_push gitEnvFail "PATCH" =
      Ev.applyAttempt false "PATCH" :: Ev.applyAttempt true "PATCH" ::
        Ev.postComment (rejectMsg gitEnvFail.strictRes gitEnvFail.threeRes "PATCH") ::
          dump_rejects gitEnvFail ∧
    Ev.gitCommit ∉ apply_patch_and_push gitEnvFail "PATCH" ∧
    Ev.gitPush ∉ apply_patch_and_push gitEnvFail "PATCH" ∧
    (pyOrS gitEnvFail.strictRes.stderr gitEnvFail.strictRes.stdout).data <:+:
      (rejectMsg gitEnvFail.strictRes gitEnvFail.threeRes "PATCH").data ∧
    (pyOrS gitEnvFail.threeRes.stderr gitEnvFail.threeRes.stdout).data <:+:
      (rejectMsg gitEnvFail.strictRes gitEnvFail.threeRes "PATCH").data ∧
    (pyTake "PATCH" 65000).data <:+:
      (rejectMsg gitEnvFail.strictRes gitEnvFail.threeRes "PATCH").data :=
  C5_two_step_apply.2.2 gitEnvFail "PATCH" (by decide) (by decide)

/-! ### C9: the distinct "nothing to commit" outcome -/

theorem commit_and_push_nothing (g : GitEnv) (hcm : g.commitRes.returncode ≠ 0) :
    commit_and_push g =
      [Ev.gitConfig, Ev.gitConfig, Ev.gitAdd, Ev.gitCommit, Ev.postComment nothingMsg] := by
  unfold commit_and_push
  rw [if_pos hcm]
  rfl

/-- C9: whenever an apply attempt has succeeded (strict or three-way)
but the subsequent `git commit` exits non-zero — which is what happens
when staging left nothing to commit, e.g. when the same successful
patch is applied a second time against the same tree — the bot posts
exactly the distinct "nothing to commit" comment (so neither the
success report nor a rejection) and does not push. -/
theorem C9_nothing_to_commit :
    ∀ (g : GitEnv) (p : String),
      (g.strictRes.returncode = 0 ∨ g.threeRes.returncode = 0) →
      g.commitRes.returncode ≠ 0 →
      Ev.postComment nothingMsg ∈ apply_patch_and_push g p ∧
      Ev.gitPush ∉ apply_patch_and_push g p ∧
      (∀ b, Ev.postComment b ∈ apply_patch_and_push g p → b = nothingMsg) := by
  intro g p happlied hcm
  by_cases hs : g.strictRes.returncode = 0
  · rw [apply_strict_ok g p hs, commit_and_push_nothing g hcm]
    refine ⟨by simp, by simp, ?_⟩
    intro b hb
    simp at hb
    exact hb
  · have ht : g.threeRes.returncode = 0 := by
      rcases happlied with h | h
      · exact absurd h hs
      · exact h
    rw [apply_three_ok g p hs ht, commit_and_push_nothing g hcm]
    refine ⟨by simp, by simp, ?_⟩
    intro b hb
    simp at hb
    exact hb

/-- Git environment of a re-applied patch: the strict apply succeeds as
a no-op, and `git commit` exits non-zero because nothing was staged. -/
def gitEnvNoop : GitEnv :=
  ⟨⟨0, "", ""⟩, ⟨0, "", ""⟩, ⟨1, "nothing to commit, working tree clean", ""⟩,
   ⟨0, "", ""⟩, []⟩

/-- C9 witness: the no-op outcome is the unique comment and no push
happens. -/
theorem C9_witness :
    Ev.postComment nothingMsg ∈ apply_patch_and_push gitEnvNoop "PATCH" ∧
    Ev.gitPush ∉ apply_patch_and_push gitEnvNoop "PATCH" ∧
    (∀ b, Ev.postComment b ∈ apply_patch_and_push gitEnvNoop "PATCH" → b = nothingMsg) :=
  C9_nothing_to_commit gitEnvNoop "PATCH" (Or.inl rfl) (by decide)

/-! ### C8: the two-attempt context escalation -/

theorem callsOf_cons_apply (tw : Bool) (q : String) (tr : List Ev) :
    callsOf (Ev.applyAttempt tw q :: tr) = callsOf tr := by
  simp [callsOf, List.filterMap_cons]

theorem callsOf_cons_comment (b : String) (tr : List Ev) :
    callsOf (Ev.postComment b :: tr) = callsOf tr := by
  simp [callsOf, List.filterMap_cons]

theorem callsOf_cons_model (p : String) (tr : List Ev) :
    callsOf (Ev.modelCall p :: tr) = p :: callsOf tr := by
  simp [callsOf, List.filterMap_cons]

theorem callsOf_commit (g : GitEnv) : callsOf (commit_and_push g) = [] := by
  unfold commit_and_push
  split
  · rfl
  · split <;> rfl

theorem callsOf_dump (g : GitEnv) : callsOf (dump_rejects g) = [] := by
  unfold dump_rejects
  split <;> rfl

theorem callsOf_apply (g : GitEnv) (p : String) :
    callsOf (apply_patch_and_push g p) = [] := by
  by_cases hs : g.strictRes.returncode = 0
  · rw [apply_strict_ok g p hs, callsOf_cons_apply, callsOf_commit]
  · by_cases ht : g.threeRes.returncode = 0
    · rw [apply_three_ok g p hs ht, callsOf_cons_apply, callsOf_cons_apply, callsOf_commit]
    · rw [apply_both_fail g p hs ht, callsOf_cons_apply, callsOf_cons_apply,
          callsOf_cons_comment, callsOf_dump]

theorem chat_main_empty (env : BotEnv) (hd : pyStrip env.diff = "") :
    chat_main env = [Ev.postComment emptyDiffMsg] := by
  unfold chat_main
  rw [if_pos hd]

theorem chat_main_valid1 (env : BotEnv) (hd : ¬ pyStrip env.diff = "")
    (h1 : ensure_valid_unified_diff (env.modelOut 1) = true) :
    chat_main env =
      Ev.modelCall (ask_prompt env.diff env.pr_body env.comment_body [] 1) ::
        apply_patch_and_push env.git (sanitize_patch_whitespace (env.modelOut 1)) := by
  unfold chat_main
  rw [if_neg hd]
  simp only [h1, if_true]

theorem chat_main_valid2 (env : BotEnv) (hd : ¬ pyStrip env.diff = "")
    (h1 : ensure_valid_unified_diff (env.modelOut 1) = false)
    (h2 : ensure_valid_unified_diff (env.modelOut 2) = true) :
    chat_main env =
      Ev.modelCall (ask_prompt env.diff env.pr_body env.comment_body [] 1) ::
        Ev.modelCall (ask_prompt env.diff env.pr_body env.comment_body env.file_ctx 2) ::
          apply_patch_and_push env.git (sanitize_patch_whitespace (env.modelOut 2)) := by
  unfold chat_main
  rw [if_neg hd]
  simp only [h1, h2, Bool.false_eq_true, if_false, if_true]

theorem calls_one_when_valid1 (env : BotEnv) (hd : ¬ pyStrip env.diff = "")
    (h1 : ensure_valid_unified_diff (env.modelOut 1) = true) :
    callsOf (chat_main env) =
      [ask_prompt env.diff env.pr_body env.comment_body [] 1] := by
  rw [chat_main_valid1 env hd h1, callsOf_cons_model, callsOf_apply]

theorem calls_two_when_invalid1 (env : BotEnv) (hd : ¬ pyStrip env.diff = "")
    (h1 : ensure_valid_unified_diff (env.modelOut 1) = false) :
    callsOf (chat_main env) =
      [ask_prompt env.diff env.pr_body env.comment_body [] 1,
       ask_prompt env.diff env.pr_body env.comment_body env.file_ctx 2] := by
  cases h2 : ensure_valid_unified_diff (env.modelOut 2) with
  | true =>
    rw [chat_main_valid2 env hd h1 h2, callsOf_cons_model, callsOf_cons_model, callsOf_apply]
  | false =>
    rw [chat_main_all_invalid env hd h1 h2, callsOf_cons_model, callsOf_cons_model,
        callsOf_cons_comment]
    rfl

theorem calls_length_le_two (env : BotEnv) :
    (callsOf (chat_main env)).length ≤ 2 := by
  by_cases hd : pyStrip env.diff = ""
  · rw [chat_main_empty env hd, callsOf_cons_comment]
    simp [callsOf]
  · cases h1 : ensure_valid_unified_diff (env.modelOut 1) with
    | true => rw [calls_one_when_valid1 env hd h1]; simp
    | false => rw [calls_two_when_invalid1 env hd h1]; simp

theorem pyTake_idem (s : String) (n : Nat) : pyTake (pyTake s n) n = pyTake s n := by
  simp [pyTake, List.take_take]

theorem build_ctx_attempt_one (d b h : String) (fc : List (String × String)) :
    build_ctx d b h fc 1 = build_ctx d b h [] 1 := by
  unfold build_ctx
  simp

theorem build_ctx_capped (d b h : String) (fc : List (String × String)) :
    build_ctx d b h fc 2 =
      build_ctx d b h ((fc.take 20).map (fun pc => (pc.1, pyTake pc.2 50000))) 2 := by
  unfold build_ctx
  by_cases hfc : fc = []
  · simp [hfc]
  · have hne : (fc.take 20).map (fun pc => (pc.1, pyTake pc.2 50000)) ≠ [] := by
      simp [List.map_eq_nil_iff, List.take_eq_nil_iff, hfc]
    rw [if_pos ⟨by omega, hfc⟩, if_pos ⟨by omega, hne⟩]
    have hlen : ((fc.take 20).map (fun pc => (pc.1, pyTake pc.2 50000))).length ≤ 20 := by
      simp
    rw [List.take_of_length_le hlen, List.map_map]
    have : ∀ pc ∈ fc.take 20,
        ((fun pc : String × String =>
            "\n----- BEGIN FILE: " ++ pc.1 ++ " -----\n" ++ pyTake pc.2 50000
              ++ "\n----- END FILE: " ++ pc.1 ++ " -----\n") ∘
          (fun pc : String × String => (pc.1, pyTake pc.2 50000))) pc =
        "\n----- BEGIN FILE: " ++ pc.1 ++ " -----\n" ++ pyTake pc.2 50000
          ++ "\n----- END FILE: " ++ pc.1 ++ " -----\n" := by
      intro pc _
      simp [Function.comp, pyTake_idem]
    rw [List.map_congr_left this]

/-- C8: per run the model is called at most twice; attempt 1's prompt is
built WITHOUT file context; attempt 2 happens exactly when attempt 1's
output fails validation and its prompt carries the changed files'
content; the context builder ignores the file context entirely on
attempt 1, and on attempt 2 uses only the first 20 files, each capped to
its first 50000 characters. -/
theorem C8_context_escalation :
    (∀ env : BotEnv, (callsOf (chat_main env)).length ≤ 2) ∧
    (∀ env : BotEnv, ¬ pyStrip env.diff = "" →
      ensure_valid_unified_diff (env.modelOut 1) = true →
      callsOf (chat_main env) =
        [ask_prompt env.diff env.pr_body env.comment_body [] 1]) ∧
    (∀ env : BotEnv, ¬ pyStrip env.diff = "" →
      ensure_valid_unified_diff (env.modelOut 1) = false →
      callsOf (chat_main env) =
        [ask_prompt env.diff env.pr_body env.comment_body [] 1,
         ask_prompt env.diff env.pr_body env.comment_body env.file_ctx 2]) ∧
    (∀ (d b h : String) (fc : List (String × String)),
      build_ctx d b h fc 1 = build_ctx d b h [] 1) ∧
    (∀ (d b h : String) (fc : List (String × String)),
      build_ctx d b h fc 2 =
        build_ctx d b h ((fc.take 20).map (fun pc => (pc.1, pyTake pc.2 50000))) 2) :=
  ⟨calls_length_le_two, calls_one_when_valid1, calls_two_when_invalid1,
   build_ctx_attempt_one, build_ctx_capped⟩

/-- A well-formed unified diff used as the model's second answer. -/
def validDiff : String :=
  "diff --git a/f b/f\n--- a/f\n+++ b/f\n@@ -1 +1 @@\n-x\n+y\n"

/-- Bot environment whose first model output is invalid and whose
second is a valid diff. -/
def envC8 : BotEnv :=
  ⟨"x", "body", "hint", [("f", "x\n")],
   fun n => if n = 1 then "garbage" else validDiff, gitEnvOk⟩

/-- C8 witness: with an invalid first output, exactly two model calls
happen — the first prompted without file context, the second with it. -/
theorem C8_witness :
    callsOf (chat_main envC8) =
      [ask_prompt envC8.diff envC8.pr_body envC8.comment_body [] 1,
       ask_prompt envC8.diff envC8.pr_body envC8.comment_body envC8.file_ctx 2] :=
  C8_context_escalation.2.2.1 envC8 (by decide) (by decide)

/-! ### C10: properties of the whitespace sanitiser -/

theorem sanitizeL_sublist (l : List Char) : List.Sublist (sanitizeL l) l := by
  induction l with
  | nil => simp [sanitizeL]
  | cons c rest ih =>
    rw [sanitizeL]
    split
    · exact ih.trans (List.sublist_cons_self c rest)
    · exact ih.cons₂ c

/-- A token is "run-good" when every blank in it is immediately
followed, inside the token, by a character that is neither blank nor
`\r` nor `\n` (and it does not end in a blank).  The sanitiser keeps
every character of such a token. -/
def goodRun : List Char → Bool
  | [] => true
  | [c] => !isBlank c
  | c :: d :: t => (!isBlank c || (!isBlank d && !(d == '\r') && !(d == '\n'))) && goodRun (d :: t)

theorem sanitizeL_append_of_goodRun :
    ∀ (tok l2 : List Char), goodRun tok = true → sanitizeL (tok ++ l2) = tok ++ sanitizeL l2 := by
  intro tok
  induction tok with
  | nil => intro l2 _; rfl
  | cons c rest ih =>
    intro l2 hg
    cases rest with
    | nil =>
      have hc : isBlank c = false := by simpa [goodRun] using hg
      simp [sanitizeL, hc]
    | cons d t =>
      simp only [goodRun, Bool.and_eq_true] at hg
      obtain ⟨hcd, hg'⟩ := hg
      have htail := ih l2 hg'
      cases hbc : isBlank c with
      | false =>
        rw [List.cons_append, sanitizeL]
        rw [if_neg (by simp [hbc])]
        rw [htail]
        simp
      | true =>
        have hd : (!isBlank d && !(d == '\r') && !(d == '\n')) = true := by
          rcases Bool.or_eq_true_iff.mp hcd with h | h
          · rw [hbc] at h; cases h
          · exact h
        simp only [Bool.and_eq_true, Bool.not_eq_true'] at hd
        obtain ⟨⟨hdb, hdr⟩, hdn⟩ := hd
        have hdrop : (d :: t ++ l2).dropWhile isBlank = d :: (t ++ l2) := by
          simp [List.dropWhile_cons, hdb]
        rw [List.cons_append, sanitizeL]
        rw [List.cons_append] at hdrop
        rw [if_neg (by simp [hbc, hdrop, endsLB, hdr, hdn])]
        rw [htail]
        simp

theorem infix_sanitizeL {tok : List Char} (hg : goodRun tok = true) :
    ∀ {l : List Char}, tok <:+: l → tok <:+: sanitizeL l := by
  intro l
  induction l with
  | nil => intro h; simpa [sanitizeL] using h
  | cons c rest ih =>
    intro h
    rcases List.infix_cons_iff.mp h with hpre | hinf
    · obtain ⟨t2, ht2⟩ := hpre
      rw [← ht2, sanitizeL_append_of_goodRun tok t2 hg]
      exact ⟨[], sanitizeL t2, by simp⟩
    · have h2 := ih hinf
      by_cases hguard : (isBlank c && endsLB (rest.dropWhile isBlank)) = true
      · rw [show sanitizeL (c :: rest) = sanitizeL rest from by rw [sanitizeL, if_pos hguard]]
        exact h2
      · rw [show sanitizeL (c :: rest) = c :: sanitizeL rest from by rw [sanitizeL, if_neg hguard]]
        exact List.infix_cons_iff.mpr (Or.inr h2)

theorem ensure_valid_sanitize (p : String)
    (h : ensure_valid_unified_diff p = true) :
    ensure_valid_unified_diff (sanitize_patch_whitespace p) = true := by
  rw [ensure_valid_iff] at h ⊢
  obtain ⟨hne, htok⟩ := h
  have hdata : (sanitize_patch_whitespace p).data = sanitizeL p.data := rfl
  constructor
  · have h1 : "@@".data <:+: sanitizeL p.data :=
      infix_sanitizeL (by decide) (htok "@@" (by simp [tokenList]))
    intro hcontra
    have hnil : sanitizeL p.data = [] := by
      rw [← hdata, hcontra]
    rw [hnil] at h1
    simpa using h1.length_le
  · intro t ht
    rw [hdata]
    refine infix_sanitizeL ?_ (htok t ht)
    fin_cases ht <;> decide

theorem dropWhile_sanitizeL (l : List Char) :
    (sanitizeL l).dropWhile isBlank = sanitizeL (l.dropWhile isBlank) := by
  induction l with
  | nil => rfl
  | cons c rest ih =>
    by_cases hb : isBlank c = true
    · by_cases hg : endsLB (rest.dropWhile isBlank) = true
      · rw [show sanitizeL (c :: rest) = sanitizeL rest from by
          rw [sanitizeL, if_pos (by simp [hb, hg])]]
        rw [ih, show (c :: rest).dropWhile isBlank = rest.dropWhile isBlank from by
          simp [List.dropWhile_cons, hb]]
      · rw [show sanitizeL (c :: rest) = c :: sanitizeL rest from by
          rw [sanitizeL, if_neg (by simp [hb, hg])]]
        rw [show (c :: sanitizeL rest).dropWhile isBlank = (sanitizeL rest).dropWhile isBlank
          from by simp [List.dropWhile_cons, hb]]
        rw [ih, show (c :: rest).dropWhile isBlank = rest.dropWhile isBlank from by
          simp [List.dropWhile_cons, hb]]
    · have hb' : isBlank c = false := by simpa using hb
      rw [show sanitizeL (c :: rest) = c :: sanitizeL rest from by
        rw [sanitizeL, if_neg (by simp [hb'])]]
      rw [show (c :: sanitizeL rest).dropWhile isBlank = c :: sanitizeL rest from by
        simp [List.dropWhile_cons, hb']]
      rw [show (c :: rest).dropWhile isBlank = c :: rest from by
        simp [List.dropWhile_cons, hb']]
      rw [show sanitizeL (c :: rest) = c :: sanitizeL rest from by
        rw [sanitizeL, if_neg (by simp [hb'])]]

theorem dropWhile_head_not {p : Char → Bool} :
    ∀ {l : List Char} {c : Char} {r : List Char}, l.dropWhile p = c :: r → p c = false := by
  intro l
  induction l with
  | nil => intro c r h; simp [List.dropWhile] at h
  | cons a t ih =>
    intro c r h
    cases hp : p a with
    | true => rw [List.dropWhile_cons, if_pos (by simp [hp])] at h; exact ih h
    | false =>
      rw [List.dropWhile_cons, if_neg (by simp [hp])] at h
      cases h
      exact hp

theorem mem_of_mem_dropWhile {p : Char → Bool} :
    ∀ {l : List Char} {a : Char}, a ∈ l.dropWhile p → a ∈ l := by
  intro l
  induction l with
  | nil => intro a h; simp at h
  | cons b t ih =>
    intro a h
    rw [List.dropWhile_cons] at h
    split at h
    · exact List.mem_cons_of_mem b (ih h)
    · exact h

theorem sanitizeL_idem_noCR : ∀ (l : List Char), '\r' ∉ l → sanitizeL (sanitizeL l) = sanitizeL l := by
  intro l
  induction l with
  | nil => intro _; rfl
  | cons c rest ih =>
    intro hcr
    have hcr' : '\r' ∉ rest := fun h => hcr (List.mem_cons_of_mem c h)
    by_cases hb : isBlank c = true
    · by_cases hg : endsLB (rest.dropWhile isBlank) = true
      · rw [show sanitizeL (c :: rest) = sanitizeL rest from by
          rw [sanitizeL, if_pos (by simp [hb, hg])]]
        exact ih hcr'
      · have hg' : endsLB (rest.dropWhile isBlank) = false := by simpa using hg
        rw [show sanitizeL (c :: rest) = c :: sanitizeL rest from by
          rw [sanitizeL, if_neg (by simp [hb, hg'])]]
        have hkey : endsLB ((sanitizeL rest).dropWhile isBlank) = false := by
          rw [dropWhile_sanitizeL]
          cases hd : rest.dropWhile isBlank with
          | nil => rfl
          | cons d0 d' =>
            have hnb : isBlank d0 = false := dropWhile_head_not hd
            have hd0r : (d0 == '\r') = false := by
              have hmem : d0 ∈ rest.dropWhile isBlank := by
                rw [hd]; exact List.mem_cons_self d0 d'
              have : d0 ≠ '\r' := by
                intro he
                exact hcr' (he ▸ mem_of_mem_dropWhile hmem)
              simpa using this
            rw [hd] at hg'
            rw [show sanitizeL (d0 :: d') = d0 :: sanitizeL d' from by
              rw [sanitizeL, if_neg (by simp [hnb])]]
            simp only [endsLB, hd0r, Bool.false_and, Bool.or_false] at hg' ⊢
            simpa using hg'
        rw [show sanitizeL (c :: sanitizeL rest) = c :: sanitizeL (sanitizeL rest) from by
          rw [sanitizeL, if_neg (by simp [hb, hkey])]]
        rw [ih hcr']
    · have hb' : isBlank c = false := by simpa using hb
      rw [show sanitizeL (c :: rest) = c :: sanitizeL rest from by
        rw [sanitizeL, if_neg (by simp [hb'])]]
      rw [show sanitizeL (c :: sanitizeL rest) = c :: sanitizeL (sanitizeL rest) from by
        rw [sanitizeL, if_neg (by simp [hb'])]]
      rw [ih hcr']

theorem applyAttempt_mem_apply (g : GitEnv) (p : String) (tw : Bool) (q : String)
    (h : Ev.applyAttempt tw q ∈ apply_patch_and_push g p) : q = p := by
  by_cases hs : g.strictRes.returncode = 0
  · rw [apply_strict_ok g p hs] at h
    rcases List.mem_cons.mp h with h | h
    · exact (Ev.applyAttempt.inj h).2
    · exact absurd h (commit_and_push_no_apply g tw q)
  · by_cases ht : g.threeRes.returncode = 0
    · rw [apply_three_ok g p hs ht] at h
      rcases List.mem_cons.mp h with h | h
      · exact (Ev.applyAttempt.inj h).2
      rcases List.mem_cons.mp h with h | h
      · exact (Ev.applyAttempt.inj h).2
      · exact absurd h (commit_and_push_no_apply g tw q)
    · rw [apply_both_fail g p hs ht] at h
      rcases List.mem_cons.mp h with h | h
      · exact (Ev.applyAttempt.inj h).2
      rcases List.mem_cons.mp h with h | h
      · exact (Ev.applyAttempt.inj h).2
      rcases List.mem_cons.mp h with h | h
      · exact Ev.noConfusion h
      · obtain ⟨b, hb⟩ := dump_rejects_only_comments g _ h
        exact Ev.noConfusion hb

theorem chat_main_handoff (env : BotEnv) (tw : Bool) (q : String)
    (h : Ev.applyAttempt tw q ∈ chat_main env) :
    ensure_valid_unified_diff q = true := by
  by_cases hd : pyStrip env.diff = ""
  · rw [chat_main_empty env hd] at h
    simp at h
  · cases h1 : ensure_valid_unified_diff (env.modelOut 1) with
    | true =>
      rw [chat_main_valid1 env hd h1] at h
      rcases List.mem_cons.mp h with h | h
      · exact Ev.noConfusion h
      · rw [applyAttempt_mem_apply _ _ _ _ h]
        exact ensure_valid_sanitize _ h1
    | false =>
      cases h2 : ensure_valid_unified_diff (env.modelOut 2) with
      | true =>
        rw [chat_main_valid2 env hd h1 h2] at h
        rcases List.mem_cons.mp h with h | h
        · exact Ev.noConfusion h
        rcases List.mem_cons.mp h with h | h
        · exact Ev.noConfusion h
        · rw [applyAttempt_mem_apply _ _ _ _ h]
          exact ensure_valid_sanitize _ h2
      | false =>
        rw [chat_main_all_invalid env hd h1 h2] at h
        simp at h

/-- Patch that is a well-formed unified diff but contains
`" \r \n"`, a blank run split by a carriage return. -/
def crPatch : String :=
  "diff --git a/f b/f\n--- a/f\n+++ b/f\n@@ -1 +1 @@\n-x\n+y \r \n"

/-- C10 counterexample: `sanitize_patch_whitespace` is NOT idempotent.
On a well-formed patch containing `" \r \n"`, the first pass deletes
only the blank before the `\n` (the blank before the `\r` is not
followed by `\r?\n` yet), producing `" \r\n"`, which the second pass
reduces further — exactly like Python's
`re.sub(r"[ \t]+(\r?\n)", r"\1", ...)` applied twice. -/
theorem C10_counterexample :
    ensure_valid_unified_diff crPatch = true ∧
    sanitize_patch_whitespace (sanitize_patch_whitespace crPatch) ≠
      sanitize_patch_whitespace crPatch := by
  decide

/-- C10 (amended): the sanitiser preserves patch validity — a
well-formed candidate stays well-formed, so the patch handed to the
apply step in `main` (sanitised after validation) is still well-formed;
and it is idempotent on every string containing no carriage return,
while full idempotence fails on blank runs split by `\r` (see the
counterexample). -/
theorem C10_sanitize_properties :
    (∀ p, ensure_valid_unified_diff p = true →
      ensure_valid_unified_diff (sanitize_patch_whitespace p) = true) ∧
    (∀ p : String, '\r' ∉ p.data →
      sanitize_patch_whitespace (sanitize_patch_whitespace p) = sanitize_patch_whitespace p) ∧
    (∀ (env : BotEnv) (tw : Bool) (q : String),
      Ev.applyAttempt tw q ∈ chat_main env → ensure_valid_unified_diff q = true) :=
  ⟨ensure_valid_sanitize,
   fun p h => congrArg String.mk (sanitizeL_idem_noCR p.data h),
   chat_main_handoff⟩

/-- C10 witness: validity is preserved on a concrete valid diff, and
the sanitiser is idempotent on it (it contains no `\r`). -/
theorem C10_witness :
    ensure_valid_unified_diff (sanitize_patch_whitespace validDiff) = true ∧
    sanitize_patch_whitespace (sanitize_patch_whitespace validDiff) =
      sanitize_patch_whitespace validDiff :=
  ⟨C10_sanitize_properties.1 validDiff (by decide),
   C10_sanitize_properties.2.1 validDiff (by decide)⟩
